import Mathlib

/-!
Verification of the DealMonitor Service + Repository data-access layer.

The JavaScript source (services, repositories, models and Joi validation
schemas for the Keyword, Subreddit and Post entities) is translated into a
shallow embedding: JS strings become `String`, JS numbers become `Int`/`Nat`,
nullable values become `Option`, thrown errors become `Except` values, the
SQLite tables become lists of row structures, and each service method becomes
a pure function that also reports the list of repository calls it performed.
-/

/-! ## ECMAScript string primitives used by the source -/

/-- Characters removed by `String.prototype.trim` and skipped by `parseInt`
(the ASCII WhiteSpace and LineTerminator code points plus NBSP and the BOM). -/
def isJsWhitespace (c : Char) : Bool :=
  c = ' ' || c = '\t' || c = '\n' || c = '\r' ||
  c = Char.ofNat 11 || c = Char.ofNat 12 || c = Char.ofNat 160 || c = Char.ofNat 65279

/-- Character-list form of `trim`: drop whitespace from both ends. -/
def jsTrimList (l : List Char) : List Char :=
  ((l.dropWhile isJsWhitespace).reverse.dropWhile isJsWhitespace).reverse

/-- Model of `String.prototype.trim`. -/
def jsTrim (s : String) : String :=
  ⟨jsTrimList s.data⟩

/-- Model of `String.prototype.toLowerCase` on one character (ASCII range;
the source only ever lowercases subreddit names). -/
def jsCharLower (c : Char) : Char :=
  if 65 ≤ c.toNat ∧ c.toNat ≤ 90 then Char.ofNat (c.toNat + 32) else c

/-- Model of `String.prototype.toLowerCase`. -/
def jsToLowerCase (s : String) : String :=
  ⟨s.data.map jsCharLower⟩

/-- Model of `String.prototype.startsWith`. -/
def jsStartsWith (s pat : String) : Bool :=
  pat.data.isPrefixOf s.data

/-- Helper for `jsReplaceFirst`: walk the character list and splice the
replacement in at the first position where the pattern occurs. -/
def jsReplaceFirstAux (pat rep : List Char) : List Char → List Char
  | [] => []
  | c :: cs =>
    if pat.isPrefixOf (c :: cs) then rep ++ (c :: cs).drop pat.length
    else c :: jsReplaceFirstAux pat rep cs

/-- Model of `String.prototype.replace` with a plain-string pattern: only the
first occurrence is replaced (an empty pattern inserts at the start). -/
def jsReplaceFirst (s pat rep : String) : String :=
  if pat.data.isEmpty then ⟨rep.data ++ s.data⟩
  else ⟨jsReplaceFirstAux pat.data rep.data s.data⟩

/-- Digits accepted by `parseInt` in base 10. -/
def charDigitVal (c : Char) : Option Nat :=
  if '0' ≤ c ∧ c ≤ '9' then some (c.toNat - 48) else none

/-- Fold a digit run into a natural number. -/
def digitsToNat (l : List Char) : Nat :=
  l.foldl (fun acc c => acc * 10 + (c.toNat - 48)) 0

/-- Model of `parseInt(x, 10)` on a string: skip leading whitespace, read an
optional sign and then a non-empty digit run; `none` models `NaN`. -/
def jsParseInt (s : String) : Option Int :=
  let t := s.data.dropWhile isJsWhitespace
  let (neg, t) : Bool × List Char :=
    match t with
    | '-' :: rest => (true, rest)
    | '+' :: rest => (false, rest)
    | _ => (false, t)
  let digits := t.takeWhile (fun c => '0' ≤ c ∧ c ≤ '9')
  if digits.isEmpty then none
  else some (if neg then -(digitsToNat digits : Int) else (digitsToNat digits : Int))

/-- Model of `String.prototype.split(',')`: split on every comma, keeping
empty pieces (`''.split(',')` is `['']`). -/
def jsSplitCommaAux : List Char → List Char → List String
  | cur, [] => [⟨cur.reverse⟩]
  | cur, c :: cs =>
    if c = ',' then ⟨cur.reverse⟩ :: jsSplitCommaAux [] cs
    else jsSplitCommaAux (c :: cur) cs

/-- Model of `s.split(',')`. -/
def jsSplitComma (s : String) : List String :=
  jsSplitCommaAux [] s.data

/-- SQLite `LIKE '%pat%'` is a case-insensitive (ASCII) substring test. -/
def likeContains (col pat : String) : Bool :=
  decide ((jsToLowerCase pat).data <:+: (jsToLowerCase col).data)

/-- One string is mentioned inside another (used to express that an error
message names the offending value). -/
def mentions (msg val : String) : Prop :=
  val.data <:+: msg.data

instance (msg val : String) : Decidable (mentions msg val) := by
  unfold mentions; infer_instance

/-- A single-quote character as a string (used in error messages). -/
def squote : String :=
  ⟨[Char.ofNat 39]⟩

/-! ## JavaScript id arguments

The services receive ids from route parameters, so an id argument can be a
number, a string, or missing (`undefined`/`null`). -/

inductive JsId where
  | num (n : Int)
  | str (s : String)
  | missing
deriving Repr, DecidableEq

/-- JS truthiness test `!id` on an id argument (`0`, `''`, `null`/`undefined`
are falsy). -/
def JsId.falsy : JsId → Bool
  | .num n => n = 0
  | .str s => s = ""
  | .missing => true

/-- `parseInt(id)`: numbers pass through, strings are parsed, missing values
give `NaN` (`none`). -/
def JsId.parseInt : JsId → Option Int
  | .num n => some n
  | .str s => jsParseInt s
  | .missing => none

/-! ## Error taxonomy

The source throws plain `Error` objects; the constructor below records which
kind of failure each throw site is (matching the spec's taxonomy) together
with the exact message built by the code. -/

inductive SvcErr where
  | validation (msg : String)
  | duplicate (msg : String)
  | notFound (msg : String)
  | invalidId (msg : String)
  | invalidInput (msg : String)
  | deleteFailed (msg : String)
  | repo (msg : String)
  | typeError (msg : String)
deriving Repr, DecidableEq

/-- Is the error a duplicate error? -/
def SvcErr.isDuplicate : SvcErr → Bool
  | .duplicate _ => true
  | _ => false

/-- Is the error a not-found error? -/
def SvcErr.isNotFound : SvcErr → Bool
  | .notFound _ => true
  | _ => false

/-- Is the error an invalid-id error? -/
def SvcErr.isInvalidId : SvcErr → Bool
  | .invalidId _ => true
  | _ => false

/-! ## Repository call trace

Service results carry the list of repository methods that actually ran, in
order, so that claims of the form "the repository's create was never
invoked" can be stated. Calling a method the repository does not define
throws a `TypeError` and records nothing. -/

inductive RepoCall where
  | existsKey (key : String)
  | existsByTitle (title : String)
  | createRow
  | findById (id : Int)
  | findByName (name : String)
  | findAll
  | updateRow (id : Int)
  | deleteRow (id : Int)
  | searchByName (text : String)
  | searchByText (text : String)
  | getStatistics
deriving Repr, DecidableEq

/-- Is the call a mutating repository call (`create`, `update` or `delete`)? -/
def RepoCall.isMutating : RepoCall → Bool
  | .createRow => true
  | .updateRow _ => true
  | .deleteRow _ => true
  | _ => false

/-! ## Shared query input

Raw query options as received by `getAll*` (every field may be absent; the
Joi `query` schemas fill in defaults). -/

structure QueryInput where
  page : Option Int := none
  limit : Option Int := none
  search : Option String := none
  sortBy : Option String := none
  sortOrder : Option String := none
  hasLinks : Option Bool := none
deriving Repr, DecidableEq

/-- The JS coercion `x || null` on an optional integer field (`0` is falsy,
so it is coerced to `null`). -/
def jsOrNullInt (i : Option Int) : Option Int :=
  match i with
  | some v => if v = 0 then none else some v
  | none => none

/-- The JS coercion `x || null` on an optional string field (`''` is falsy,
so it is coerced to `null`). -/
def jsOrNullStr (s : Option String) : Option String :=
  match s with
  | some v => if v = "" then none else some v
  | none => none

/-- `${id}` interpolation of a raw id argument into an error message. -/
def JsId.interp : JsId → String
  | .num n => toString n
  | .str s => s
  | .missing => "undefined"

/-! ## Keyword vertical

`src/models/Keyword.js`, `src/repositories/KeywordRepository.js`,
`src/services/KeywordService.js`.

`KeywordService`'s constructor runs `new KeywordRepository()` with no
argument, so the repository's `db` is `undefined`; and `KeywordRepository`
defines only `create`, `findById`, `update` and `delete` (no `exists`,
`findAll`, `searchByText` or `getStatistics`). Both facts are modelled
exactly. (The stray `:` after the `throw` in `deleteKeyword` is read as the
intended `;`.) -/

/-- The `Keyword` model class (`new Keyword(data)` applies `|| null` /
`|| ''` coercions to its fields). -/
structure Keyword where
  id : Option Int
  keyword : String
  createdAt : Option Int
  updatedAt : Option Int
deriving Repr, DecidableEq

/-- `new Keyword(data)` from optional fields. -/
def Keyword.ofData (id : Option Int) (kw : Option String) (c u : Option Int) : Keyword :=
  { id := jsOrNullInt id
    keyword := kw.getD ""
    createdAt := jsOrNullInt c
    updatedAt := jsOrNullInt u }

/-- A row of the `keywords` table (`keyword` is NOT NULL with a UNIQUE
constraint; timestamps default to the insert/update time). -/
structure KwRow where
  id : Int
  keyword : String
  createdAt : Int
  updatedAt : Int
deriving Repr, DecidableEq

/-- The `keywords` table plus its autoincrement counter. -/
structure KwTable where
  rows : List KwRow
  nextId : Int
deriving Repr, DecidableEq

/-- `Keyword.fromDatabase` on a (non-null) row. -/
def Keyword.fromRow (r : KwRow) : Keyword :=
  Keyword.ofData (some r.id) (some r.keyword) (some r.createdAt) (some r.updatedAt)

/-- Result of a `KeywordRepository` method: the value or thrown error, the
number of storage queries executed, and the database state afterwards. -/
structure KwRepoOut (α : Type) where
  res : Except SvcErr α
  dbOps : Nat
  db : Option KwTable

namespace KeywordRepository

/-- `findById`: `this.db(this.tableName).where({id}).first()`; with an
undefined connection the call itself throws and is re-wrapped. -/
def findById (db : Option KwTable) (id : Int) : KwRepoOut (Option Keyword) :=
  match db with
  | none =>
    { res := .error (.repo "Failed to find keyword by ID: this.db is not a function")
      dbOps := 0, db := none }
  | some t =>
    { res := .ok ((t.rows.find? (fun r => r.id = id)).map Keyword.fromRow)
      dbOps := 1, db := some t }

/-- `create`: build the entity, strip id and timestamps, insert, reload by
id. The UNIQUE constraint on `keywords.keyword` makes a duplicate insert
fail at the storage layer. -/
def create (db : Option KwTable) (keyword : String) (now : Int) : KwRepoOut Keyword :=
  match db with
  | none =>
    { res := .error (.repo "Failed to create keyword: this.db is not a function")
      dbOps := 0, db := none }
  | some t =>
    if t.rows.any (fun r => r.keyword = keyword) then
      { res := .error (.repo "Failed to create keyword: UNIQUE constraint failed: keywords.keyword")
        dbOps := 1, db := some t }
    else
      let row : KwRow := { id := t.nextId, keyword := keyword, createdAt := now, updatedAt := now }
      let t2 : KwTable := { rows := t.rows ++ [row], nextId := t.nextId + 1 }
      let reread := findById (some t2) row.id
      { res := match reread.res with
          | .ok v => .ok (v.getD (Keyword.ofData none none none none))
          | .error e => .error e
        dbOps := 1 + reread.dbOps, db := some t2 }

/-- `update`: load the existing row (null result is returned to the
service), merge the patch over the entity, strip `id`/`created_at`, stamp
`updated_at`, write, reload. -/
def update (db : Option KwTable) (id : Int) (patchKw : Option String) (now : Int) :
    KwRepoOut (Option Keyword) :=
  match db with
  | none =>
    { res := .error (.repo "Failed to update keyword: this.db is not a function")
      dbOps := 0, db := none }
  | some t =>
    let pre := findById (some t) id
    match pre.res with
    | .error e => { res := .error e, dbOps := pre.dbOps, db := some t }
    | .ok none => { res := .ok none, dbOps := pre.dbOps, db := some t }
    | .ok (some existing) =>
      let newKw := patchKw.getD existing.keyword
      if t.rows.any (fun r => r.id ≠ id ∧ r.keyword = newKw) then
        { res := .error (.repo "Failed to update keyword: UNIQUE constraint failed: keywords.keyword")
          dbOps := pre.dbOps + 1, db := some t }
      else
        let t2 : KwTable :=
          { rows := t.rows.map (fun r =>
              if r.id = id then { r with keyword := newKw, updatedAt := now } else r)
            nextId := t.nextId }
        let reread := findById (some t2) id
        { res := reread.res, dbOps := pre.dbOps + 1 + reread.dbOps, db := some t2 }

/-- `delete`: `del()` by id; reports whether a row was removed. -/
def deleteById (db : Option KwTable) (id : Int) : KwRepoOut Bool :=
  match db with
  | none =>
    { res := .error (.repo "Failed to delete keyword: this.db is not a function")
      dbOps := 0, db := none }
  | some t =>
    { res := .ok (t.rows.any (fun r => r.id = id))
      dbOps := 1
      db := some { rows := t.rows.filter (fun r => r.id ≠ id), nextId := t.nextId } }

end KeywordRepository

/-! ### Keyword validation schemas (Joi) -/

namespace KeywordValidation

/-- `KeywordValidation.create`: `keyword` is a required string, 1–500
characters, with custom empty/max messages. Returns the first violation
message or the validated value. -/
def createValidate (keyword : Option String) : Except String String :=
  match keyword with
  | none => .error "\"keyword\" is required"
  | some s =>
    if s = "" then .error "Keyword cannot be empty"
    else if s.length > 500 then .error "Keyword must be less than 500 characters"
    else .ok s

/-- `KeywordValidation.update`: numeric integer `id` required (`none` models
`NaN` from `parseInt`), `keyword` optional with the same string bounds. -/
def updateValidate (id : Option Int) (keyword : Option String) :
    Except String (Int × Option String) :=
  match id with
  | none => .error "\"id\" must be a number"
  | some n =>
    match keyword with
    | none => .ok (n, none)
    | some s =>
      if s = "" then .error "\"keyword\" is not allowed to be empty"
      else if s.length > 500 then
        .error "\"keyword\" length must be less than or equal to 500 characters long"
      else .ok (n, some s)

/-- Validated query options for keywords. -/
structure QueryValue where
  page : Int
  limit : Int
  search : Option String
  sortBy : String
  sortOrder : String
deriving Repr, DecidableEq

/-- `KeywordValidation.query`: `page ≥ 1` (default 1), `1 ≤ limit ≤ 100`
(default 20), optional `search` up to 255 characters, `sortBy` in
keyword/created_at/updated_at (default `created_at`), `sortOrder`
asc/desc (default `desc`). -/
def queryValidate (q : QueryInput) : Except String QueryValue := do
  let page ← match q.page with
    | none => pure 1
    | some p => if p < 1 then throw "\"page\" must be greater than or equal to 1" else pure p
  let limit ← match q.limit with
    | none => pure 20
    | some l =>
      if l < 1 then throw "\"limit\" must be greater than or equal to 1"
      else if l > 100 then throw "\"limit\" must be less than or equal to 100"
      else pure l
  let search ← match q.search with
    | none => pure none
    | some s =>
      if s = "" then throw "\"search\" is not allowed to be empty"
      else if s.length > 255 then
        throw "\"search\" length must be less than or equal to 255 characters long"
      else pure (some s)
  let sortBy ← match q.sortBy with
    | none => pure "created_at"
    | some v =>
      if v = "keyword" ∨ v = "created_at" ∨ v = "updated_at" then pure v
      else throw "\"sortBy\" must be one of [keyword, created_at, updated_at]"
  let sortOrder ← match q.sortOrder with
    | none => pure "desc"
    | some v =>
      if v = "asc" ∨ v = "desc" then pure v
      else throw "\"sortOrder\" must be one of [asc, desc]"
  pure { page := page, limit := limit, search := search, sortBy := sortBy, sortOrder := sortOrder }

end KeywordValidation

/-! ### KeywordService -/

/-- Result of a `KeywordService` method: the returned value or thrown error,
the repository methods that ran, and the number of storage queries
executed. -/
structure KwOut (α : Type) where
  res : Except SvcErr α
  calls : List RepoCall
  dbOps : Nat
deriving Repr

namespace KeywordService

/-- The service constructor runs `new KeywordRepository()` with no argument,
so the repository's database handle is `undefined`. -/
def repoDb : Option KwTable := none

/-- `createKeyword`: validate, trim, then call `this.keywordRepository.exists`
— a method `KeywordRepository` does not define, so the call throws a
`TypeError` before any storage access. -/
def createKeyword (keyword : Option String) : KwOut Keyword :=
  match KeywordValidation.createValidate keyword with
  | .error m =>
    { res := .error (.validation ("Validation error: " ++ m)), calls := [], dbOps := 0 }
  | .ok _value =>
    { res := .error (.typeError "this.keywordRepository.exists is not a function")
      calls := [], dbOps := 0 }

/-- `getAllKeywords`: validate the query, then call the undefined
`findAll`. -/
def getAllKeywords (options : QueryInput) : KwOut Unit :=
  match KeywordValidation.queryValidate options with
  | .error m =>
    { res := .error (.validation ("Query validation error: " ++ m)), calls := [], dbOps := 0 }
  | .ok _value =>
    { res := .error (.typeError "this.keywordRepository.findAll is not a function")
      calls := [], dbOps := 0 }

/-- `getKeywordById`: reject falsy or unparseable ids, then look the keyword
up (the lookup itself fails: the repository has no database handle). -/
def getKeywordById (id : JsId) : KwOut Keyword :=
  if id.falsy then
    { res := .error (.invalidId "Invalid keyword ID"), calls := [], dbOps := 0 }
  else
    match id.parseInt with
    | none => { res := .error (.invalidId "Invalid keyword ID"), calls := [], dbOps := 0 }
    | some n =>
      let r := KeywordRepository.findById repoDb n
      { res := match r.res with
          | .error e => .error e
          | .ok none => .error (.notFound ("Keyword with ID " ++ id.interp ++ " not found"))
          | .ok (some k) => .ok k
        calls := [.findById n], dbOps := r.dbOps }

/-- `updateKeyword`: validate `{id: parseInt(id), ...updateData}`, load the
existing keyword, re-check uniqueness only when the keyword changes, then
update (the possibly-null repository result is returned as-is). -/
def updateKeyword (id : JsId) (updKeyword : Option String) (now : Int) : KwOut (Option Keyword) :=
  match KeywordValidation.updateValidate id.parseInt updKeyword with
  | .error m =>
    { res := .error (.validation ("Validation error: " ++ m)), calls := [], dbOps := 0 }
  | .ok (n, kw) =>
    let pre := KeywordRepository.findById repoDb n
    match pre.res with
    | .error e => { res := .error e, calls := [.findById n], dbOps := pre.dbOps }
    | .ok none =>
      { res := .error (.notFound ("Keyword with ID " ++ id.interp ++ " not found."))
        calls := [.findById n], dbOps := pre.dbOps }
    | .ok (some existing) =>
      match kw with
      | some kwv =>
        if kwv ≠ existing.keyword then
          -- this.keywordRepository.exists is not a function
          { res := .error (.typeError "this.keywordRepository.exists is not a function")
            calls := [.findById n], dbOps := pre.dbOps }
        else
          let r := KeywordRepository.update repoDb n (some kwv) now
          { res := r.res, calls := [.findById n, .updateRow n], dbOps := pre.dbOps + r.dbOps }
      | none =>
        let r := KeywordRepository.update repoDb n none now
        { res := r.res, calls := [.findById n, .updateRow n], dbOps := pre.dbOps + r.dbOps }

/-- `deleteKeyword`: reject falsy or unparseable ids, load the existing
keyword (which fails: no database handle), then delete. -/
def deleteKeyword (id : JsId) : KwOut Bool :=
  if id.falsy then
    { res := .error (.invalidId "Invalid keyword ID"), calls := [], dbOps := 0 }
  else
    match id.parseInt with
    | none => { res := .error (.invalidId "Invalid keyword ID"), calls := [], dbOps := 0 }
    | some n =>
      let pre := KeywordRepository.findById repoDb n
      match pre.res with
      | .error e => { res := .error e, calls := [.findById n], dbOps := pre.dbOps }
      | .ok none =>
        { res := .error (.notFound ("Keyword with ID " ++ id.interp ++ " not found"))
          calls := [.findById n], dbOps := pre.dbOps }
      | .ok (some _existing) =>
        let r := KeywordRepository.deleteById repoDb n
        { res := match r.res with
            | .error e => .error e
            | .ok true => .ok true
            | .ok false => .error (.deleteFailed "Failed to delete keyword")
          calls := [.findById n, .deleteRow n], dbOps := pre.dbOps + r.dbOps }

/-- `searchKeywords`: reject empty or whitespace-only text, then call the
undefined `searchByText`. -/
def searchKeywords (searchText : Option String) (_limit : Int := 20) : KwOut Unit :=
  match searchText with
  | none =>
    { res := .error (.invalidInput "Search text is required"), calls := [], dbOps := 0 }
  | some s =>
    if s = "" ∨ jsTrim s = "" then
      { res := .error (.invalidInput "Search text is required"), calls := [], dbOps := 0 }
    else
      { res := .error (.typeError "this.keywordRepository.searchByText is not a function")
        calls := [], dbOps := 0 }

/-- `getStatistics`: calls the undefined `getStatistics` repository
method. -/
def getStatistics : KwOut Unit :=
  { res := .error (.typeError "this.keywordRepository.getStatistics is not a function")
    calls := [], dbOps := 0 }

end KeywordService

/-! ## A sort helper modelling SQL ORDER BY -/

/-- Insert into a sorted list (insertion-sort step). -/
def insertLe {α : Type} (le : α → α → Bool) (a : α) : List α → List α
  | [] => [a]
  | b :: bs => if le a b then a :: b :: bs else b :: insertLe le a bs

/-- Stable insertion sort used to model `ORDER BY`. -/
def sortByLe {α : Type} (le : α → α → Bool) : List α → List α
  | [] => []
  | a :: as => insertLe le a (sortByLe le as)

theorem length_insertLe {α : Type} (le : α → α → Bool) (a : α) (l : List α) :
    (insertLe le a l).length = l.length + 1 := by
  induction l with
  | nil => rfl
  | cons b bs ih =>
    simp only [insertLe]
    split <;> simp [ih]

theorem length_sortByLe {α : Type} (le : α → α → Bool) (l : List α) :
    (sortByLe le l).length = l.length := by
  induction l with
  | nil => rfl
  | cons a as ih => simp [sortByLe, length_insertLe, ih]

theorem mem_insertLe {α : Type} (le : α → α → Bool) (a b : α) (l : List α) :
    b ∈ insertLe le a l ↔ b = a ∨ b ∈ l := by
  induction l with
  | nil => simp [insertLe]
  | cons c cs ih =>
    simp only [insertLe]
    split
    · simp [List.mem_cons]
    · simp only [List.mem_cons, ih]
      tauto

theorem mem_sortByLe {α : Type} (le : α → α → Bool) (b : α) (l : List α) :
    b ∈ sortByLe le l ↔ b ∈ l := by
  induction l with
  | nil => simp [sortByLe]
  | cons a as ih => simp [sortByLe, mem_insertLe, ih]

/-! ## Subreddit vertical

`src/models/Subreddit.js`, `src/repositories/SubredditRepository.js`,
`src/services/SubredditService.js` (the service is constructed with the
shared database handle, so its repository is fully wired). -/

/-- The `Subreddit` model class. -/
structure Subreddit where
  id : Option Int
  name : Option String
  createdAt : Option Int
  updatedAt : Option Int
deriving Repr, DecidableEq

/-- `new Subreddit(data)` (each field goes through `|| null`). -/
def Subreddit.ofData (id : Option Int) (name : Option String) (c u : Option Int) : Subreddit :=
  { id := jsOrNullInt id
    name := jsOrNullStr name
    createdAt := jsOrNullInt c
    updatedAt := jsOrNullInt u }

/-- A row of the `subreddits` table (`name` is NOT NULL and UNIQUE). -/
structure SubRow where
  id : Int
  name : String
  createdAt : Int
  updatedAt : Int
deriving Repr, DecidableEq

/-- The `subreddits` table plus its autoincrement counter. -/
structure SubTable where
  rows : List SubRow
  nextId : Int
deriving Repr, DecidableEq

/-- `Subreddit.fromDatabase` on a (non-null) row. -/
def Subreddit.fromRow (r : SubRow) : Subreddit :=
  Subreddit.ofData (some r.id) (some r.name) (some r.createdAt) (some r.updatedAt)

/-- Result of a `SubredditRepository` operation: value or wrapped storage
error, and the database state afterwards. -/
structure SubRepoOut (α : Type) where
  res : Except SvcErr α
  db : SubTable
deriving Repr

/-- Paged result shape returned by `SubredditRepository.findAll`. -/
structure SubFindAllResult where
  subreddits : List Subreddit
  total : Nat
  page : Int
  limit : Int
  pages : Int
deriving Repr, DecidableEq

/-- Options destructured by `SubredditRepository.findAll` (defaults
`page = 1`, `limit = 20`, `search = null`). -/
structure SubFindAllOptions where
  page : Int := 1
  limit : Int := 20
  search : Option String := none
deriving Repr, DecidableEq

namespace SubredditRepository

/-- `findById`: `where({id}).first()`, null when absent. -/
def findById (t : SubTable) (id : Int) : Option Subreddit :=
  (t.rows.find? (fun r => r.id = id)).map Subreddit.fromRow

/-- `findByName`: exact-match lookup, null when absent. -/
def findByName (t : SubTable) (name : String) : Option Subreddit :=
  (t.rows.find? (fun r => r.name = name)).map Subreddit.fromRow

/-- `exists`: `!!(where({name}).first())` — exact match, no normalization
here. -/
def existsName (t : SubTable) (name : String) : Bool :=
  t.rows.any (fun r => r.name = name)

/-- `create`: build the entity (`'' → null` coercion included), strip id and
timestamps, insert — the NOT NULL and UNIQUE constraints on
`subreddits.name` can fail the insert — then reload by id. -/
def create (t : SubTable) (name : String) (now : Int) : SubRepoOut Subreddit :=
  match jsOrNullStr (some name) with
  | none =>
    { res := .error (.repo "Failed to create subreddit: NOT NULL constraint failed: subreddits.name")
      db := t }
  | some nm =>
    if t.rows.any (fun r => r.name = nm) then
      { res := .error (.repo "Failed to create subreddit: UNIQUE constraint failed: subreddits.name")
        db := t }
    else
      let row : SubRow := { id := t.nextId, name := nm, createdAt := now, updatedAt := now }
      let t2 : SubTable := { rows := t.rows ++ [row], nextId := t.nextId + 1 }
      match findById t2 row.id with
      | some sub => { res := .ok sub, db := t2 }
      | none => { res := .error (.repo "Failed to create subreddit: not found after insert"), db := t2 }

/-- `searchByName`: `LIKE %text%`, ordered by name ascending, capped at
`limit`. -/
def searchByName (t : SubTable) (searchText : String) (limit : Int) : List Subreddit :=
  ((sortByLe (fun a b => decide (a.name ≤ b.name))
      (t.rows.filter (fun r => likeContains r.name searchText))).take limit.toNat).map
    Subreddit.fromRow

/-- Rows matching the `findAll` search filter (`if (search)`: the filter is
skipped for an absent or empty search string). -/
def matchesSearch (search : Option String) (r : SubRow) : Bool :=
  match search with
  | some s => if s ≠ "" then likeContains r.name s else true
  | none => true

/-- `findAll`: count all matching rows, then apply ORDER BY name ASC with
LIMIT/OFFSET, and report `pages = Math.ceil(total / limit)`. -/
def findAll (t : SubTable) (o : SubFindAllOptions) : SubFindAllResult :=
  let matching := t.rows.filter (matchesSearch o.search)
  let total : Nat := matching.length
  let offset : Int := (o.page - 1) * o.limit
  let rows :=
    ((sortByLe (fun a b => decide (a.name ≤ b.name)) matching).drop offset.toNat).take
      o.limit.toNat
  { subreddits := rows.map Subreddit.fromRow
    total := total
    page := o.page
    limit := o.limit
    pages := if 0 < o.limit then ((total : Int) + o.limit - 1) / o.limit else 0 }

/-- `update`: load the existing entity (null when absent), merge the patch
over it, rebuild a `Subreddit` (re-applying the `|| null` coercions), strip
`id`/`created_at`, stamp `updated_at`, write, reload. -/
def update (t : SubTable) (id : Int) (patchName : Option String) (now : Int) :
    SubRepoOut (Option Subreddit) :=
  match findById t id with
  | none => { res := .ok none, db := t }
  | some existing =>
    let merged : Option String :=
      match patchName with
      | some s => jsOrNullStr (some s)
      | none => existing.name
    match merged with
    | none =>
      { res := .error (.repo "Failed to update subreddit: NOT NULL constraint failed: subreddits.name")
        db := t }
    | some nm =>
      if t.rows.any (fun r => r.id ≠ id ∧ r.name = nm) then
        { res := .error (.repo "Failed to update subreddit: UNIQUE constraint failed: subreddits.name")
          db := t }
      else
        let t2 : SubTable :=
          { rows := t.rows.map (fun r =>
              if r.id = id then { r with name := nm, updatedAt := now } else r)
            nextId := t.nextId }
        { res := .ok (findById t2 id), db := t2 }

/-- `delete`: `del()` by id, reporting whether a row was removed. -/
def deleteById (t : SubTable) (id : Int) : SubRepoOut Bool :=
  { res := .ok (t.rows.any (fun r => r.id = id))
    db := { rows := t.rows.filter (fun r => r.id ≠ id), nextId := t.nextId } }

end SubredditRepository

/-! ### Subreddit validation schemas (Joi) -/

namespace SubredditValidation

/-- `SubredditValidation.create`: `name` required, 1–500 characters. -/
def createValidate (name : Option String) : Except String String :=
  match name with
  | none => .error "\"name\" is required"
  | some s =>
    if s = "" then .error "name cannot be empty"
    else if s.length > 500 then .error "name must be less than 500 characters"
    else .ok s

/-- `SubredditValidation.update`: integer `id` required, `name` optional. -/
def updateValidate (id : Option Int) (name : Option String) :
    Except String (Int × Option String) :=
  match id with
  | none => .error "\"id\" must be a number"
  | some n =>
    match name with
    | none => .ok (n, none)
    | some s =>
      if s = "" then .error "\"name\" is not allowed to be empty"
      else if s.length > 500 then
        .error "\"name\" length must be less than or equal to 500 characters long"
      else .ok (n, some s)

/-- Validated query options for subreddits. -/
structure QueryValue where
  page : Int
  limit : Int
  search : Option String
  sortBy : String
  sortOrder : String
deriving Repr, DecidableEq

/-- `SubredditValidation.query`: like the keyword schema, but `search` is at
most 50 characters and the sort defaults are `name`/`asc`. -/
def queryValidate (q : QueryInput) : Except String QueryValue := do
  let page ← match q.page with
    | none => pure 1
    | some p => if p < 1 then throw "\"page\" must be greater than or equal to 1" else pure p
  let limit ← match q.limit with
    | none => pure 20
    | some l =>
      if l < 1 then throw "\"limit\" must be greater than or equal to 1"
      else if l > 100 then throw "\"limit\" must be less than or equal to 100"
      else pure l
  let search ← match q.search with
    | none => pure none
    | some s =>
      if s = "" then throw "\"search\" is not allowed to be empty"
      else if s.length > 50 then
        throw "\"search\" length must be less than or equal to 50 characters long"
      else pure (some s)
  let sortBy ← match q.sortBy with
    | none => pure "name"
    | some v =>
      if v = "name" ∨ v = "created_at" ∨ v = "updated_at" then pure v
      else throw "\"sortBy\" must be one of [name, created_at, updated_at]"
  let sortOrder ← match q.sortOrder with
    | none => pure "asc"
    | some v =>
      if v = "asc" ∨ v = "desc" then pure v
      else throw "\"sortOrder\" must be one of [asc, desc]"
  pure { page := page, limit := limit, search := search, sortBy := sortBy, sortOrder := sortOrder }

end SubredditValidation

/-! ### SubredditService -/

/-- The Subreddit create/read normalization: trim, lowercase, then strip one
leading `r/` (guarded by `startsWith`). -/
def normalizeSubredditName (s : String) : String :=
  let t := jsToLowerCase (jsTrim s)
  if jsStartsWith t "r/" then jsReplaceFirst t "r/" "" else t

/-- Result of a `SubredditService` method: value or thrown error, the
database state afterwards, and the repository calls that ran. -/
structure SubOut (α : Type) where
  res : Except SvcErr α
  db : SubTable
  calls : List RepoCall
deriving Repr

namespace SubredditService

/-- `createSubreddit`: validate, normalize, check `exists` with the
normalized name, then create with the normalized name. -/
def createSubreddit (t : SubTable) (name : Option String) (now : Int) : SubOut Subreddit :=
  match SubredditValidation.createValidate name with
  | .error m =>
    { res := .error (.validation ("Validation error: " ++ m)), db := t, calls := [] }
  | .ok value =>
    let normalizedName := normalizeSubredditName value
    if SubredditRepository.existsName t normalizedName then
      { res := .error (.duplicate ("Subreddit " ++ normalizedName ++ " already exists"))
        db := t, calls := [.existsKey normalizedName] }
    else
      let r := SubredditRepository.create t normalizedName now
      { res := r.res, db := r.db, calls := [.existsKey normalizedName, .createRow] }

/-- `getAllSubreddits`: validate the query, delegate to `findAll`. -/
def getAllSubreddits (t : SubTable) (options : QueryInput) : SubOut SubFindAllResult :=
  match SubredditValidation.queryValidate options with
  | .error m =>
    { res := .error (.validation ("Query validation error: " ++ m)), db := t, calls := [] }
  | .ok v =>
    { res := .ok (SubredditRepository.findAll t
        { page := v.page, limit := v.limit, search := v.search })
      db := t, calls := [.findAll] }

/-- `getSubredditById`: reject falsy/unparseable ids, then `findById`,
failing with not-found on a null result. -/
def getSubredditById (t : SubTable) (id : JsId) : SubOut Subreddit :=
  if id.falsy then
    { res := .error (.invalidId "Invalid subreddit ID"), db := t, calls := [] }
  else
    match id.parseInt with
    | none => { res := .error (.invalidId "Invalid subreddit ID"), db := t, calls := [] }
    | some n =>
      match SubredditRepository.findById t n with
      | none =>
        { res := .error (.notFound ("Subreddit with ID " ++ id.interp ++ " not found"))
          db := t, calls := [.findById n] }
      | some sub => { res := .ok sub, db := t, calls := [.findById n] }

/-- `updateSubreddit`: validate `{id: parseInt(id), ...updateData}`, load the
existing subreddit, and when the patch carries a name different from the
stored one, duplicate-check and write `value.name.trim()` — only a trim, no
lowercasing or `r/`-stripping. -/
def updateSubreddit (t : SubTable) (id : JsId) (updName : Option String) (now : Int) :
    SubOut (Option Subreddit) :=
  match SubredditValidation.updateValidate id.parseInt updName with
  | .error m =>
    { res := .error (.validation ("Validation error: " ++ m)), db := t, calls := [] }
  | .ok (n, name) =>
    match SubredditRepository.findById t n with
    | none =>
      { res := .error (.notFound ("Subreddit with ID " ++ id.interp ++ " not found."))
        db := t, calls := [.findById n] }
    | some existing =>
      match name with
      | some s =>
        if existing.name ≠ some s then
          let normalizedName := jsTrim s
          if SubredditRepository.existsName t normalizedName then
            { res := .error (.duplicate ("Subreddit " ++ normalizedName ++ " already exists"))
              db := t, calls := [.findById n, .existsKey normalizedName] }
          else
            let r := SubredditRepository.update t n (some normalizedName) now
            { res := r.res, db := r.db
              calls := [.findById n, .existsKey normalizedName, .updateRow n] }
        else
          let r := SubredditRepository.update t n (some s) now
          { res := r.res, db := r.db, calls := [.findById n, .updateRow n] }
      | none =>
        let r := SubredditRepository.update t n none now
        { res := r.res, db := r.db, calls := [.findById n, .updateRow n] }

/-- `deleteSubreddit`: reject falsy/unparseable ids, load the existing
subreddit (not-found when absent), delete, and fail if the delete reported
no rows. -/
def deleteSubreddit (t : SubTable) (id : JsId) : SubOut Bool :=
  if id.falsy then
    { res := .error (.invalidId "Invalid subreddit id"), db := t, calls := [] }
  else
    match id.parseInt with
    | none => { res := .error (.invalidId "Invalid subreddit id"), db := t, calls := [] }
    | some n =>
      match SubredditRepository.findById t n with
      | none =>
        { res := .error (.notFound ("Subreddit with ID " ++ id.interp ++ " not found"))
          db := t, calls := [.findById n] }
      | some _existing =>
        let r := SubredditRepository.deleteById t n
        { res := match r.res with
            | .error e => .error e
            | .ok true => .ok true
            | .ok false => .error (.deleteFailed "Failed to delete subreddit")
          db := r.db, calls := [.findById n, .deleteRow n] }

/-- `searchSubreddits`: the code normalizes `searchText.trim()` before the
emptiness guard, so a missing argument throws a `TypeError` first; an empty
or whitespace-only string fails the guard; otherwise it delegates to
`searchByName` (the `if (!result)` branch after a list-returning call is
dead code: an array is always truthy). -/
def searchSubreddits (t : SubTable) (searchText : Option String) (limit : Int := 50) :
    SubOut (List Subreddit) :=
  match searchText with
  | none =>
    { res := .error (.typeError
        ("Cannot read properties of undefined (reading " ++ squote ++ "trim" ++ squote ++ ")"))
      db := t, calls := [] }
  | some s =>
    let normalizedText := jsReplaceFirst (jsToLowerCase (jsTrim s)) "r/" ""
    if s = "" ∨ jsTrim s = "" then
      { res := .error (.invalidInput "Search text is required"), db := t, calls := [] }
    else
      { res := .ok (SubredditRepository.searchByName t normalizedText limit)
        db := t, calls := [.searchByName normalizedText] }

end SubredditService

/-! ## Post vertical: links serialization

`Post.toDatabase` stores `JSON.stringify(this.links)` in the `links` text
column and `parseLinks` reads it back with `JSON.parse`, falling back to a
comma-split when the column does not parse. `JSON.parse` is modelled on the
shape the code ever writes — a JSON array of strings (with `\"` and `\\`
escapes and optional whitespace); other JSON documents are treated as
unparseable and take the comma-split fallback. -/

/-- JSON insignificant whitespace. -/
def isJsonWs (c : Char) : Bool :=
  c = ' ' || c = '\t' || c = '\n' || c = '\r'

/-- `JSON.stringify` escaping of a string body (quote and backslash;
control characters do not occur in stored links). -/
def jsonEscapeChars : List Char → List Char
  | [] => []
  | c :: cs =>
    if c = '"' ∨ c = '\\' then '\\' :: c :: jsonEscapeChars cs
    else c :: jsonEscapeChars cs

/-- A JSON string literal for `s`, as characters. -/
def jsonQuoteChars (s : String) : List Char :=
  '"' :: (jsonEscapeChars s.data ++ ['"'])

/-- Comma-separated JSON string literals. -/
def encodeElemsChars : List String → List Char
  | [] => []
  | [s] => jsonQuoteChars s
  | s :: rest => jsonQuoteChars s ++ ',' :: encodeElemsChars rest

/-- `JSON.stringify` of a links array. -/
def jsonStringifyLinks (ls : List String) : String :=
  ⟨'[' :: (encodeElemsChars ls ++ [']'])⟩

/-- Parse a JSON string-literal body up to the closing quote, returning the
decoded characters and the rest of the input. -/
def parseJStrBody : List Char → Option (List Char × List Char)
  | [] => none
  | c :: rest =>
    if c = '"' then some ([], rest)
    else if c = '\\' then
      match rest with
      | [] => none
      | c2 :: rest2 =>
        if c2 = '"' ∨ c2 = '\\' then
          match parseJStrBody rest2 with
          | some (a, r) => some (c2 :: a, r)
          | none => none
        else none
    else
      match parseJStrBody rest with
      | some (a, r) => some (c :: a, r)
      | none => none

/-- Parse the elements of a non-empty JSON string array, positioned at the
start of a string literal; returns the strings and the input after the
closing `]`. The fuel argument bounds the number of elements. -/
def parseElemsAux : Nat → List Char → Option (List String × List Char)
  | 0, _ => none
  | fuel + 1, l =>
    match l with
    | '"' :: rest =>
      match parseJStrBody rest with
      | none => none
      | some (a, r) =>
        match r.dropWhile isJsonWs with
        | ',' :: r3 =>
          match parseElemsAux fuel (r3.dropWhile isJsonWs) with
          | some (as, tail) => some (⟨a⟩ :: as, tail)
          | none => none
        | ']' :: r3 => some ([⟨a⟩], r3)
        | _ => none
    | _ => none

/-- `JSON.parse` on the documents the code writes: a (possibly empty) JSON
array of string literals, allowing surrounding whitespace; anything else is
a parse failure. -/
def jsonParseStringArray (s : String) : Option (List String) :=
  match s.data.dropWhile isJsonWs with
  | [] => none
  | c :: rest =>
    if c = '[' then
      match rest.dropWhile isJsonWs with
      | [] => none
      | c2 :: tail =>
        if c2 = ']' then (if (tail.dropWhile isJsonWs).isEmpty then some [] else none)
        else
          match parseElemsAux ((c2 :: tail).length + 1) (c2 :: tail) with
          | some (as, tail2) => if (tail2.dropWhile isJsonWs).isEmpty then some as else none
          | none => none
    else none

/-- `parseLinks`: null/empty is an empty list; a parseable JSON string array
is returned as-is; otherwise fall back to comma-splitting, trimming, and
dropping empty pieces. -/
def parseLinks (linksData : Option String) : List String :=
  match linksData with
  | none => []
  | some s =>
    if s = "" then []
    else
      match jsonParseStringArray s with
      | some l => l
      | none => ((jsSplitComma s).map jsTrim).filter (fun x => x ≠ "")

/-! ### Post model, table and repository

`src/models/Post.js`, `src/repositories/PostRepository.js`. -/

/-- The `Post` model class (`links` is always an array after construction). -/
structure Post where
  id : Option Int
  title : String
  description : Option String
  links : List String
  createdAt : Option Int
  updatedAt : Option Int
deriving Repr, DecidableEq

/-- A row of the `posts` table (`title` NOT NULL, `description` and `links`
nullable; no unique constraint on `title`). -/
structure PostRow where
  id : Int
  title : String
  description : Option String
  links : Option String
  createdAt : Int
  updatedAt : Int
deriving Repr, DecidableEq

/-- The `posts` table plus its autoincrement counter. -/
structure PostTable where
  rows : List PostRow
  nextId : Int
deriving Repr, DecidableEq

/-- `Post.fromDatabase` on a (non-null) row: `new Post(row)` applies
`|| null` / `|| ''` coercions and parses the serialized links column. -/
def Post.fromRow (r : PostRow) : Post :=
  { id := jsOrNullInt (some r.id)
    title := r.title
    description := jsOrNullStr r.description
    links := parseLinks r.links
    createdAt := jsOrNullInt (some r.createdAt)
    updatedAt := jsOrNullInt (some r.updatedAt) }

/-- Result of a `PostRepository` operation. -/
structure PostRepoOut (α : Type) where
  res : Except SvcErr α
  db : PostTable
deriving Repr

/-- Paged result shape returned by `PostRepository.findAll`. -/
structure PostFindAllResult where
  posts : List Post
  total : Nat
  page : Int
  limit : Int
  pages : Int
deriving Repr, DecidableEq

/-- Options destructured by `PostRepository.findAll` (defaults `page = 1`,
`limit = 20`, `search = null`, `hasLinks = null`). -/
structure PostFindAllOptions where
  page : Int := 1
  limit : Int := 20
  search : Option String := none
  hasLinks : Option Bool := none
deriving Repr, DecidableEq

namespace PostRepository

/-- `findById`: `where({id}).first()`, null when absent. -/
def findById (t : PostTable) (id : Int) : Option Post :=
  (t.rows.find? (fun r => r.id = id)).map Post.fromRow

/-- `existsByTitle`: `!!(where({title}).first())` — exact match. -/
def existsTitle (t : PostTable) (title : String) : Bool :=
  t.rows.any (fun r => r.title = title)

/-- `create`: build the entity, serialize `links`, strip id and timestamps,
insert, reload by id (the `posts` table has no unique constraint, so the
insert succeeds). -/
def create (t : PostTable) (title : String) (description : Option String)
    (links : List String) (now : Int) : PostRepoOut Post :=
  let row : PostRow :=
    { id := t.nextId
      title := title
      description := jsOrNullStr description
      links := some (jsonStringifyLinks links)
      createdAt := now
      updatedAt := now }
  let t2 : PostTable := { rows := t.rows ++ [row], nextId := t.nextId + 1 }
  match findById t2 row.id with
  | some p => { res := .ok p, db := t2 }
  | none => { res := .error (.repo "Failed to create post: not found after insert"), db := t2 }

/-- The `findAll` search filter (skipped for an absent or empty search
string; matches `title` or `description`, NULL descriptions never match). -/
def matchesPostSearch (search : Option String) (r : PostRow) : Bool :=
  match search with
  | some s =>
    if s ≠ "" then
      likeContains r.title s ||
        (match r.description with
          | some d => likeContains d s
          | none => false)
    else true
  | none => true

/-- The `hasLinks` tri-state filter: `true` keeps rows whose links column is
non-null and not `'[]'`; `false` keeps rows whose links column is `'[]'` or
null; absent keeps everything. -/
def matchesLinksFilter (hasLinks : Option Bool) (r : PostRow) : Bool :=
  match hasLinks with
  | some true =>
    match r.links with
    | some s => s ≠ "[]"
    | none => false
  | some false =>
    match r.links with
    | some s => s = "[]"
    | none => true
  | none => true

/-- Both `findAll` filters together. -/
def matchesPostFilters (o : PostFindAllOptions) (r : PostRow) : Bool :=
  matchesPostSearch o.search r && matchesLinksFilter o.hasLinks r

/-- `findAll`: count all matching rows, then apply ORDER BY created_at DESC
with LIMIT/OFFSET, and report `pages = Math.ceil(total / limit)`. -/
def findAll (t : PostTable) (o : PostFindAllOptions) : PostFindAllResult :=
  let matching := t.rows.filter (matchesPostFilters o)
  let total : Nat := matching.length
  let offset : Int := (o.page - 1) * o.limit
  let rows :=
    ((sortByLe (fun a b => decide (b.createdAt ≤ a.createdAt)) matching).drop offset.toNat).take
      o.limit.toNat
  { posts := rows.map Post.fromRow
    total := total
    page := o.page
    limit := o.limit
    pages := if 0 < o.limit then ((total : Int) + o.limit - 1) / o.limit else 0 }

/-- `update`: load the existing entity (null when absent), merge the patch
over its fields, rebuild a `Post` (re-serializing links), strip
`id`/`created_at`, stamp `updated_at`, write, reload. -/
def update (t : PostTable) (id : Int) (patchTitle : Option String)
    (patchDescription : Option (Option String)) (patchLinks : Option (List String))
    (now : Int) : PostRepoOut (Option Post) :=
  match findById t id with
  | none => { res := .ok none, db := t }
  | some existing =>
    let newTitle := patchTitle.getD existing.title
    let newDescription : Option String :=
      match patchDescription with
      | some dv => jsOrNullStr dv
      | none => existing.description
    let newLinks := patchLinks.getD existing.links
    let t2 : PostTable :=
      { rows := t.rows.map (fun r =>
          if r.id = id then
            { r with title := newTitle
                     description := newDescription
                     links := some (jsonStringifyLinks newLinks)
                     updatedAt := now }
          else r)
        nextId := t.nextId }
    { res := .ok (findById t2 id), db := t2 }

/-- `delete`: `del()` by id, reporting whether a row was removed. -/
def deleteById (t : PostTable) (id : Int) : PostRepoOut Bool :=
  { res := .ok (t.rows.any (fun r => r.id = id))
    db := { rows := t.rows.filter (fun r => r.id ≠ id), nextId := t.nextId } }

/-- `searchByText`: `LIKE %text%` against title or description, ordered by
recency, capped at `limit`. -/
def searchByText (t : PostTable) (searchText : String) (limit : Int) : List Post :=
  ((sortByLe (fun a b => decide (b.createdAt ≤ a.createdAt))
      (t.rows.filter (fun r =>
        likeContains r.title searchText ||
          (match r.description with
            | some d => likeContains d searchText
            | none => false)))).take limit.toNat).map
    Post.fromRow

end PostRepository

/-! ### Post validation schemas (Joi) -/

/-- Raw input object for `createPost` (`description` distinguishes absent
from explicit null, both of which Joi accepts). -/
structure PostCreateInput where
  title : Option String := none
  description : Option (Option String) := none
  links : Option (List String) := none
deriving Repr, DecidableEq

/-- Validated `create` value for posts. -/
structure PostCreateValue where
  title : String
  description : Option (Option String)
  links : List String
deriving Repr, DecidableEq

/-- An approximation of Joi's `string().uri()` check: a URI must start with
an alphabetic scheme followed by a colon. (The claims under proof never
depend on the exact URI grammar.) -/
def joiIsUri (s : String) : Bool :=
  match s.data with
  | c :: _ =>
    (c.isAlpha : Bool) &&
      ((s.data.dropWhile (fun d =>
          d.isAlphanum || d = '+' || d = '-' || d = '.')).headD ' ' = ':')
  | [] => false

namespace PostValidation

/-- The optional `description` rule: null and empty string allowed, at most
10000 characters. -/
def validateDescription (d : Option (Option String)) : Except String (Option (Option String)) :=
  match d with
  | none => .ok none
  | some none => .ok (some none)
  | some (some s) =>
    if s.length > 10000 then
      .error "\"description\" length must be less than or equal to 10000 characters long"
    else .ok (some (some s))

/-- The `links` rule: an array of URI strings, defaulting to `[]`. -/
def validateLinks (ls : Option (List String)) : Except String (List String) :=
  match ls with
  | none => .ok []
  | some l => if l.all joiIsUri then .ok l else .error "Invalid URL format for link"

/-- `PostValidation.create`: `title` required 1–500 with custom messages,
`description` optional (null and empty string allowed) up to 10000
characters, `links` an array of URI strings defaulting to `[]`. -/
def createValidate (input : PostCreateInput) : Except String PostCreateValue :=
  match input.title with
  | none => .error "\"title\" is required"
  | some s =>
    if s = "" then .error "Title cannot be empty"
    else if s.length > 500 then .error "Title must be less than 500 characters"
    else
      match validateDescription input.description with
      | .error m => .error m
      | .ok d =>
        match validateLinks input.links with
        | .error m => .error m
        | .ok links => .ok { title := s, description := d, links := links }

/-- `PostValidation.update`: integer `id` required, all content fields
optional (same bounds as `create`, but `links` has no default). -/
def updateValidate (id : Option Int) (title : Option String)
    (description : Option (Option String)) (links : Option (List String)) :
    Except String (Int × Option String × Option (Option String) × Option (List String)) := do
  let n ← match id with
    | none => throw "\"id\" must be a number"
    | some n => pure n
  let t ← match title with
    | none => pure none
    | some s =>
      if s = "" then throw "\"title\" is not allowed to be empty"
      else if s.length > 500 then
        throw "\"title\" length must be less than or equal to 500 characters long"
      else pure (some s)
  let d ← match description with
    | none => pure none
    | some none => pure (some none)
    | some (some s) =>
      if s.length > 10000 then
        throw "\"description\" length must be less than or equal to 10000 characters long"
      else pure (some (some s))
  let ls ← match links with
    | none => pure none
    | some l =>
      if l.all joiIsUri then pure (some l)
      else throw "Invalid URL format for link"
  pure (n, t, d, ls)

/-- Validated query options for posts. -/
structure QueryValue where
  page : Int
  limit : Int
  search : Option String
  hasLinks : Option Bool
deriving Repr, DecidableEq

/-- `PostValidation.query`: `page ≥ 1` (default 1), `1 ≤ limit ≤ 100`
(default 20), optional `search` up to 255 characters, optional boolean
`hasLinks`; no sort fields. -/
def queryValidate (q : QueryInput) : Except String QueryValue := do
  let page ← match q.page with
    | none => pure 1
    | some p => if p < 1 then throw "\"page\" must be greater than or equal to 1" else pure p
  let limit ← match q.limit with
    | none => pure 20
    | some l =>
      if l < 1 then throw "\"limit\" must be greater than or equal to 1"
      else if l > 100 then throw "\"limit\" must be less than or equal to 100"
      else pure l
  let search ← match q.search with
    | none => pure none
    | some s =>
      if s = "" then throw "\"search\" is not allowed to be empty"
      else if s.length > 255 then
        throw "\"search\" length must be less than or equal to 255 characters long"
      else pure (some s)
  pure { page := page, limit := limit, search := search, hasLinks := q.hasLinks }

end PostValidation

/-! ### PostService -/

/-- Result of a `PostService` method. -/
structure PostOut (α : Type) where
  res : Except SvcErr α
  db : PostTable
  calls : List RepoCall
deriving Repr

namespace PostService

/-- The `value.description?.trim() || value.description` dance in
`createPost`: a present non-null description is trimmed unless the trimmed
form is empty, in which case the original untrimmed value is kept. -/
def descriptionArg (d : Option (Option String)) : Option String :=
  match d with
  | none => none
  | some none => none
  | some (some s) =>
    let ts := jsTrim s
    some (if ts = "" then s else ts)

/-- `createPost`: validate, trim the title, duplicate-check via
`existsByTitle` with the trimmed title (the duplicate error is the fixed
message `Duplicate post exists`), then create. -/
def createPost (t : PostTable) (input : PostCreateInput) (now : Int) : PostOut Post :=
  match PostValidation.createValidate input with
  | .error m =>
    { res := .error (.validation ("Validation error: " ++ m)), db := t, calls := [] }
  | .ok value =>
    let normalizedTitle := jsTrim value.title
    if PostRepository.existsTitle t normalizedTitle then
      { res := .error (.duplicate "Duplicate post exists")
        db := t, calls := [.existsByTitle normalizedTitle] }
    else
      let r := PostRepository.create t (jsTrim value.title)
        (descriptionArg value.description) value.links now
      { res := r.res, db := r.db, calls := [.existsByTitle normalizedTitle, .createRow] }

/-- `getAllPosts`: validate the query, delegate to `findAll`. -/
def getAllPosts (t : PostTable) (options : QueryInput) : PostOut PostFindAllResult :=
  match PostValidation.queryValidate options with
  | .error m =>
    { res := .error (.validation ("Query validation error: " ++ m)), db := t, calls := [] }
  | .ok v =>
    { res := .ok (PostRepository.findAll t
        { page := v.page, limit := v.limit, search := v.search, hasLinks := v.hasLinks })
      db := t, calls := [.findAll] }

/-- `getPostById`: reject falsy/unparseable ids, then `findById`, failing
with not-found on a null result. -/
def getPostById (t : PostTable) (id : JsId) : PostOut Post :=
  if id.falsy then
    { res := .error (.invalidId "Invalid post ID"), db := t, calls := [] }
  else
    match id.parseInt with
    | none => { res := .error (.invalidId "Invalid post ID"), db := t, calls := [] }
    | some n =>
      match PostRepository.findById t n with
      | none =>
        { res := .error (.notFound ("Post with ID " ++ id.interp ++ " not found"))
          db := t, calls := [.findById n] }
      | some p => { res := .ok p, db := t, calls := [.findById n] }

/-- `updatePost`: validate `{id: parseInt(id), ...updateData}`, load the
existing post, re-check the title for duplicates only when it changes
(trimming it in that case), then update. -/
def updatePost (t : PostTable) (id : JsId) (updTitle : Option String)
    (updDescription : Option (Option String)) (updLinks : Option (List String))
    (now : Int) : PostOut (Option Post) :=
  match PostValidation.updateValidate id.parseInt updTitle updDescription updLinks with
  | .error m =>
    { res := .error (.validation ("Validation error: " ++ m)), db := t, calls := [] }
  | .ok (n, title, description, links) =>
    match PostRepository.findById t n with
    | none =>
      { res := .error (.notFound ("Post with ID " ++ id.interp ++ " not found."))
        db := t, calls := [.findById n] }
    | some existing =>
      match title with
      | some s =>
        if s ≠ existing.title then
          let normalizedTitle := jsTrim s
          if PostRepository.existsTitle t normalizedTitle then
            { res := .error (.duplicate
                ("Post " ++ squote ++ normalizedTitle ++ squote ++ " already exists"))
              db := t, calls := [.findById n, .existsByTitle normalizedTitle] }
          else
            let r := PostRepository.update t n (some normalizedTitle) description links now
            { res := r.res, db := r.db
              calls := [.findById n, .existsByTitle normalizedTitle, .updateRow n] }
        else
          let r := PostRepository.update t n (some s) description links now
          { res := r.res, db := r.db, calls := [.findById n, .updateRow n] }
      | none =>
        let r := PostRepository.update t n none description links now
        { res := r.res, db := r.db, calls := [.findById n, .updateRow n] }

/-- `deletePost`: reject falsy/unparseable ids, load the existing post
(not-found when absent), delete, and fail if the delete reported no rows. -/
def deletePost (t : PostTable) (id : JsId) : PostOut Bool :=
  if id.falsy then
    { res := .error (.invalidId "Invalid post ID"), db := t, calls := [] }
  else
    match id.parseInt with
    | none => { res := .error (.invalidId "Invalid post ID"), db := t, calls := [] }
    | some n =>
      match PostRepository.findById t n with
      | none =>
        { res := .error (.notFound ("Post with ID " ++ id.interp ++ " not found"))
          db := t, calls := [.findById n] }
      | some _existing =>
        let r := PostRepository.deleteById t n
        { res := match r.res with
            | .error e => .error e
            | .ok true => .ok true
            | .ok false => .error (.deleteFailed "Failed to delete post")
          db := r.db, calls := [.findById n, .deleteRow n] }

/-- `searchPosts`: reject missing, empty or whitespace-only text before the
`try` block, then delegate to `searchByText` with the trimmed text. -/
def searchPosts (t : PostTable) (searchText : Option String) (limit : Int := 20) :
    PostOut (List Post) :=
  match searchText with
  | none =>
    { res := .error (.invalidInput "Search text is required"), db := t, calls := [] }
  | some s =>
    if s = "" ∨ jsTrim s = "" then
      { res := .error (.invalidInput "Search text is required"), db := t, calls := [] }
    else
      { res := .ok (PostRepository.searchByText t (jsTrim s) limit)
        db := t, calls := [.searchByText (jsTrim s)] }

end PostService

/-- Decidable equality for `Except` results (used to evaluate concrete
service outcomes inside proofs). -/
instance {ε α : Type} [DecidableEq ε] [DecidableEq α] : DecidableEq (Except ε α) := fun a b =>
  match a, b with
  | .ok x, .ok y => if h : x = y then .isTrue (by simp [h]) else .isFalse (by simp [h])
  | .error x, .error y => if h : x = y then .isTrue (by simp [h]) else .isFalse (by simp [h])
  | .ok _, .error _ => .isFalse (by simp)
  | .error _, .ok _ => .isFalse (by simp)

/-! ## Supporting lemmas on the string primitives -/

theorem charToNat_ofNat (n : Nat) (h : n.isValidChar) : (Char.ofNat n).toNat = n := by
  simp [Char.ofNat, h, Char.toNat, Char.ofNatAux, UInt32.toNat, BitVec.toNat_ofNatLt]

theorem jsCharLower_idem (c : Char) : jsCharLower (jsCharLower c) = jsCharLower c := by
  unfold jsCharLower
  split
  · have hv : (c.toNat + 32).isValidChar := by
      rcases c with ⟨v, hvp⟩
      simp only [Char.toNat] at *
      left
      omega
    have ht : (Char.ofNat (c.toNat + 32)).toNat = c.toNat + 32 := charToNat_ofNat _ hv
    rw [if_neg]
    omega
  · rfl

theorem strEq {a b : String} (h : a.data = b.data) : a = b := by
  cases a; cases b; exact congrArg String.mk h

theorem jsToLowerCase_data (s : String) : (jsToLowerCase s).data = s.data.map jsCharLower := rfl

theorem map_jsCharLower_idem (l : List Char) :
    (l.map jsCharLower).map jsCharLower = l.map jsCharLower := by
  rw [List.map_map]
  exact List.map_congr_left (fun a _ => by simp [Function.comp, jsCharLower_idem])

theorem jsReplaceFirst_rslash (t : String) (hb : jsStartsWith t "r/" = true) :
    (jsReplaceFirst t "r/" "").data = t.data.drop 2 := by
  unfold jsStartsWith at hb
  have hp : "r/".data <+: t.data := List.isPrefixOf_iff_prefix.mp hb
  obtain ⟨rest, hr⟩ := hp
  have hrest : t.data = 'r' :: '/' :: rest := by rw [← hr]; rfl
  unfold jsReplaceFirst
  rw [if_neg (by decide)]
  show jsReplaceFirstAux "r/".data "".data t.data = t.data.drop 2
  rw [hrest]
  simp [jsReplaceFirstAux, List.isPrefixOf]

theorem jsToLowerCase_norm (s : String) :
    jsToLowerCase (normalizeSubredditName s) = normalizeSubredditName s := by
  unfold normalizeSubredditName
  cases hb : jsStartsWith (jsToLowerCase (jsTrim s)) "r/" with
  | true =>
    simp only [hb, if_true]
    apply strEq
    rw [jsToLowerCase_data, jsReplaceFirst_rslash _ hb, jsToLowerCase_data, List.map_drop,
      map_jsCharLower_idem]
  | false =>
    simp only [hb, Bool.false_eq_true, if_false]
    apply strEq
    rw [jsToLowerCase_data, jsToLowerCase_data, map_jsCharLower_idem]

theorem normalizeSubredditName_def (s : String) :
    normalizeSubredditName s =
      (if jsStartsWith (jsToLowerCase (jsTrim s)) "r/"
        then jsReplaceFirst (jsToLowerCase (jsTrim s)) "r/" ""
        else jsToLowerCase (jsTrim s)) := rfl

/-! ## Claim C5 — idempotence of the Subreddit name normalization -/

/-- C5, as stated, is false: normalizing `"r/r/x"` once gives `"r/x"` and a
second application strips again, giving `"x"`; likewise stripping can expose
leading whitespace (`"r/ x"` normalizes to `" x"`, then to `"x"`). -/
theorem C5_counterexample :
    normalizeSubredditName (normalizeSubredditName "r/r/x") ≠ normalizeSubredditName "r/r/x" ∧
      normalizeSubredditName (normalizeSubredditName "r/ x") ≠ normalizeSubredditName "r/ x" := by
  decide

/-- C5 (amended): the Subreddit normalization (trim, then lowercase, then
strip one leading `r/`) is idempotent on every input whose normalized value
is itself trimmed and does not start with `r/` — stripping the prefix can
expose leading whitespace or a second `r/`, and exactly then a second
application differs. -/
theorem C5_subreddit_normalization_idempotent (s : String)
    (h1 : jsTrim (normalizeSubredditName s) = normalizeSubredditName s)
    (h2 : jsStartsWith (normalizeSubredditName s) "r/" = false) :
    normalizeSubredditName (normalizeSubredditName s) = normalizeSubredditName s := by
  rw [normalizeSubredditName_def (normalizeSubredditName s), h1, jsToLowerCase_norm, h2]
  simp

/-- Witness for C5 at the concrete input `"  R/Gaming "`. -/
theorem C5_witness :
    jsTrim (normalizeSubredditName "  R/Gaming ") = normalizeSubredditName "  R/Gaming " ∧
      jsStartsWith (normalizeSubredditName "  R/Gaming ") "r/" = false ∧
      normalizeSubredditName (normalizeSubredditName "  R/Gaming ") =
        normalizeSubredditName "  R/Gaming " :=
  ⟨by decide, by decide,
    C5_subreddit_normalization_idempotent "  R/Gaming " (by decide) (by decide)⟩

/-! ## Claim C7 — id validation on getById -/

/-- C7, as stated, is false: `0` is a numeric id, yet `!id` treats it as
falsy, so every service rejects it as invalid without calling the
repository instead of passing it to the lookup. -/
theorem C7_counterexample :
    (PostService.getPostById { rows := [], nextId := 1 } (.num 0)).res =
        .error (.invalidId "Invalid post ID") ∧
      (PostService.getPostById { rows := [], nextId := 1 } (.num 0)).calls = [] ∧
      (SubredditService.getSubredditById { rows := [], nextId := 1 } (.num 0)).res =
        .error (.invalidId "Invalid subreddit ID") ∧
      (SubredditService.getSubredditById { rows := [], nextId := 1 } (.num 0)).calls = [] ∧
      (KeywordService.getKeywordById (.num 0)).res = .error (.invalidId "Invalid keyword ID") ∧
      (KeywordService.getKeywordById (.num 0)).calls = [] := by
  decide

/-- C7 (amended): a missing or non-numeric id (`parseInt` gives `NaN`) is
rejected by `getKeywordById`/`getSubredditById`/`getPostById` with an
invalid-id error and no repository call; every numeric id other than `0` is
accepted and passed to the repository `findById` lookup (`0`, though
numeric, is rejected by the `!id` falsiness test). -/
theorem C7_invalid_id_rejected_nonzero_numeric_accepted (id : JsId) (n : Int)
    (ts ts2 : SubTable) (tp tp2 : PostTable)
    (hrej : id.parseInt = none) (hn : n ≠ 0) :
    ((KeywordService.getKeywordById id).res = .error (.invalidId "Invalid keyword ID") ∧
      (KeywordService.getKeywordById id).calls = []) ∧
    ((SubredditService.getSubredditById ts id).res = .error (.invalidId "Invalid subreddit ID") ∧
      (SubredditService.getSubredditById ts id).calls = []) ∧
    ((PostService.getPostById tp id).res = .error (.invalidId "Invalid post ID") ∧
      (PostService.getPostById tp id).calls = []) ∧
    (KeywordService.getKeywordById (.num n)).calls = [.findById n] ∧
    (SubredditService.getSubredditById ts2 (.num n)).calls = [.findById n] ∧
    (PostService.getPostById tp2 (.num n)).calls = [.findById n] := by
  refine ⟨?_, ?_, ?_, ?_, ?_, ?_⟩
  · by_cases hf : id.falsy
    · unfold KeywordService.getKeywordById
      rw [if_pos hf]
      exact ⟨rfl, rfl⟩
    · unfold KeywordService.getKeywordById
      rw [if_neg hf, hrej]
      exact ⟨rfl, rfl⟩
  · by_cases hf : id.falsy
    · unfold SubredditService.getSubredditById
      rw [if_pos hf]
      exact ⟨rfl, rfl⟩
    · unfold SubredditService.getSubredditById
      rw [if_neg hf, hrej]
      exact ⟨rfl, rfl⟩
  · by_cases hf : id.falsy
    · unfold PostService.getPostById
      rw [if_pos hf]
      exact ⟨rfl, rfl⟩
    · unfold PostService.getPostById
      rw [if_neg hf, hrej]
      exact ⟨rfl, rfl⟩
  · unfold KeywordService.getKeywordById
    rw [if_neg (by simp [JsId.falsy, hn])]
    rfl
  · unfold SubredditService.getSubredditById
    rw [if_neg (by simp [JsId.falsy, hn])]
    simp only [JsId.parseInt]
    split <;> rfl
  · unfold PostService.getPostById
    rw [if_neg (by simp [JsId.falsy, hn])]
    simp only [JsId.parseInt]
    split <;> rfl

/-- Witness for C7 at the concrete inputs `"abc"` (non-numeric) and `7`. -/
theorem C7_witness :
    (JsId.str "abc").parseInt = none ∧ (7 : Int) ≠ 0 ∧
      ((KeywordService.getKeywordById (.str "abc")).res =
          .error (.invalidId "Invalid keyword ID") ∧
        (KeywordService.getKeywordById (.str "abc")).calls = []) ∧
      (PostService.getPostById { rows := [], nextId := 1 } (.num 7)).calls = [.findById 7] :=
  ⟨by decide, by decide,
    (C7_invalid_id_rejected_nonzero_numeric_accepted (.str "abc") 7
      { rows := [], nextId := 1 } { rows := [], nextId := 1 }
      { rows := [], nextId := 1 } { rows := [], nextId := 1 } (by decide) (by decide)).1,
    (C7_invalid_id_rejected_nonzero_numeric_accepted (.str "abc") 7
      { rows := [], nextId := 1 } { rows := [], nextId := 1 }
      { rows := [], nextId := 1 } { rows := [], nextId := 1 } (by decide)
      (by decide)).2.2.2.2.2⟩

/-! ## Claim C9 — empty search text fails before storage -/

/-- C9: in all three services, a missing, empty, or whitespace-only search
text makes the search call fail before any repository/storage search is
performed (for Subreddit a missing argument even fails on the pre-guard
`trim` with a `TypeError`). -/
theorem C9_empty_search_fails_before_storage (stext : Option String)
    (ts : SubTable) (tp : PostTable) (l1 l2 l3 : Int)
    (h : ∀ s, stext = some s → jsTrim s = "") :
    ((∃ e, (KeywordService.searchKeywords stext l1).res = .error e) ∧
      (KeywordService.searchKeywords stext l1).calls = []) ∧
    ((∃ e, (SubredditService.searchSubreddits ts stext l2).res = .error e) ∧
      (SubredditService.searchSubreddits ts stext l2).calls = []) ∧
    ((∃ e, (PostService.searchPosts tp stext l3).res = .error e) ∧
      (PostService.searchPosts tp stext l3).calls = []) := by
  cases stext with
  | none => exact ⟨⟨⟨_, rfl⟩, rfl⟩, ⟨⟨_, rfl⟩, rfl⟩, ⟨⟨_, rfl⟩, rfl⟩⟩
  | some s =>
    have hs : jsTrim s = "" := h s rfl
    refine ⟨?_, ?_, ?_⟩
    · simp only [KeywordService.searchKeywords]
      rw [if_pos (Or.inr hs)]
      exact ⟨⟨_, rfl⟩, rfl⟩
    · simp only [SubredditService.searchSubreddits]
      rw [if_pos (Or.inr hs)]
      exact ⟨⟨_, rfl⟩, rfl⟩
    · simp only [PostService.searchPosts]
      rw [if_pos (Or.inr hs)]
      exact ⟨⟨_, rfl⟩, rfl⟩

/-- Witness for C9 at the whitespace-only search text `"   "`. -/
theorem C9_witness :
    jsTrim "   " = "" ∧
      ((∃ e, (KeywordService.searchKeywords (some "   ") 20).res = .error e) ∧
        (KeywordService.searchKeywords (some "   ") 20).calls = []) ∧
      ((∃ e, (SubredditService.searchSubreddits { rows := [], nextId := 1 }
          (some "   ") 50).res = .error e) ∧
        (SubredditService.searchSubreddits { rows := [], nextId := 1 }
          (some "   ") 50).calls = []) ∧
      ((∃ e, (PostService.searchPosts { rows := [], nextId := 1 }
          (some "   ") 20).res = .error e) ∧
        (PostService.searchPosts { rows := [], nextId := 1 } (some "   ") 20).calls = []) :=
  ⟨by decide,
    C9_empty_search_fails_before_storage (some "   ") { rows := [], nextId := 1 }
      { rows := [], nextId := 1 } 20 50 20 (fun s hsome => by
        cases hsome
        decide)⟩

/-! ## Claim C2 — the Keyword vertical never reaches storage -/

/-- C2: every `createKeyword`, `getAllKeywords`, `searchKeywords` and
`getStatistics` call fails with an error while executing zero storage
queries — the service builds its repository without a database handle and
the repository defines none of `exists`, `findAll`, `searchByText`,
`getStatistics`, so every call path that survives validation dies on the
missing repository method (a `TypeError`). -/
theorem C2_keyword_service_fails_before_storage (kw : Option String) (q : QueryInput)
    (stext : Option String) (lim : Int) :
    ((∃ e, (KeywordService.createKeyword kw).res = .error e) ∧
      (KeywordService.createKeyword kw).dbOps = 0) ∧
    ((∃ e, (KeywordService.getAllKeywords q).res = .error e) ∧
      (KeywordService.getAllKeywords q).dbOps = 0) ∧
    ((∃ e, (KeywordService.searchKeywords stext lim).res = .error e) ∧
      (KeywordService.searchKeywords stext lim).dbOps = 0) ∧
    ((∃ e, KeywordService.getStatistics.res = .error e) ∧
      KeywordService.getStatistics.dbOps = 0) ∧
    (∀ v, KeywordValidation.createValidate kw = .ok v →
      (KeywordService.createKeyword kw).res =
        .error (.typeError "this.keywordRepository.exists is not a function")) ∧
    (∀ v, KeywordValidation.queryValidate q = .ok v →
      (KeywordService.getAllKeywords q).res =
        .error (.typeError "this.keywordRepository.findAll is not a function")) ∧
    (∀ s, stext = some s → ¬(s = "" ∨ jsTrim s = "") →
      (KeywordService.searchKeywords stext lim).res =
        .error (.typeError "this.keywordRepository.searchByText is not a function")) ∧
    KeywordService.getStatistics.res =
      .error (.typeError "this.keywordRepository.getStatistics is not a function") := by
  refine ⟨?_, ?_, ?_, ⟨⟨_, rfl⟩, rfl⟩, ?_, ?_, ?_, rfl⟩
  · cases hv : KeywordValidation.createValidate kw with
    | error m =>
      simp only [KeywordService.createKeyword, hv]
      exact ⟨⟨_, rfl⟩, trivial⟩
    | ok v =>
      simp only [KeywordService.createKeyword, hv]
      exact ⟨⟨_, rfl⟩, trivial⟩
  · cases hv : KeywordValidation.queryValidate q with
    | error m =>
      simp only [KeywordService.getAllKeywords, hv]
      exact ⟨⟨_, rfl⟩, trivial⟩
    | ok v =>
      simp only [KeywordService.getAllKeywords, hv]
      exact ⟨⟨_, rfl⟩, trivial⟩
  · cases stext with
    | none => exact ⟨⟨_, rfl⟩, rfl⟩
    | some s =>
      by_cases hc : s = "" ∨ jsTrim s = ""
      · simp only [KeywordService.searchKeywords]
        rw [if_pos hc]
        exact ⟨⟨_, rfl⟩, rfl⟩
      · simp only [KeywordService.searchKeywords]
        rw [if_neg hc]
        exact ⟨⟨_, rfl⟩, rfl⟩
  · intro v hv
    simp only [KeywordService.createKeyword, hv]
  · intro v hv
    simp only [KeywordService.getAllKeywords, hv]
  · intro s hsome hc
    subst hsome
    simp only [KeywordService.searchKeywords]
    rw [if_neg hc]

/-- Witness for C2 at valid concrete inputs that reach the repository. -/
theorem C2_witness :
    (KeywordService.createKeyword (some "gaming")).res =
        .error (.typeError "this.keywordRepository.exists is not a function") ∧
      (KeywordService.createKeyword (some "gaming")).dbOps = 0 ∧
      (KeywordService.searchKeywords (some "laptop") 20).res =
        .error (.typeError "this.keywordRepository.searchByText is not a function") :=
  ⟨(C2_keyword_service_fails_before_storage (some "gaming") {} (some "laptop") 20).2.2.2.2.1
      "gaming" rfl,
    (C2_keyword_service_fails_before_storage (some "gaming") {} (some "laptop") 20).1.2,
    (C2_keyword_service_fails_before_storage (some "gaming") {} (some "laptop") 20).2.2.2.2.2.2.1
      "laptop" rfl (by decide)⟩

/-! ## Claim C6 — not-found behavior on absent ids

For Subreddit and Post the claim holds, but `KeywordService` constructs its
repository without the database handle (`new KeywordRepository()`, although
`db` is imported and the constructor documents the parameter, and the sister
services pass it), so on a missing id the Keyword operations fail with the
wrapped repository error `Failed to find keyword by ID: this.db is not a
function` instead of a `NotFoundError`. No mutating repository call happens
in any of the nine operations. -/

/-- C6: concrete evaluation at the failing input — id `999`, absent from
storage. `getSubredditById`/`getPostById`/update/delete fail with not-found
errors and no mutating repository call, but the three Keyword operations
fail with the wrapped repository error caused by the missing database
handle, contradicting the claimed `NotFoundError`. -/
theorem C6_not_found_keyword_divergence :
    ((KeywordService.getKeywordById (.num 999)).res =
        .error (.repo "Failed to find keyword by ID: this.db is not a function") ∧
      (KeywordService.updateKeyword (.num 999) (some "newkw") 0).res =
        .error (.repo "Failed to find keyword by ID: this.db is not a function") ∧
      (KeywordService.updateKeyword (.num 999) (some "newkw") 0).calls = [.findById 999] ∧
      (KeywordService.deleteKeyword (.num 999)).res =
        .error (.repo "Failed to find keyword by ID: this.db is not a function") ∧
      (KeywordService.deleteKeyword (.num 999)).calls = [.findById 999]) ∧
    ((SubredditService.getSubredditById
          { rows := [{ id := 1, name := "gaming", createdAt := 0, updatedAt := 0 }],
            nextId := 2 } (.num 999)).res =
        .error (.notFound "Subreddit with ID 999 not found") ∧
      (SubredditService.updateSubreddit
          { rows := [{ id := 1, name := "gaming", createdAt := 0, updatedAt := 0 }],
            nextId := 2 } (.num 999) (some "newname") 0).res =
        .error (.notFound "Subreddit with ID 999 not found.") ∧
      (SubredditService.updateSubreddit
          { rows := [{ id := 1, name := "gaming", createdAt := 0, updatedAt := 0 }],
            nextId := 2 } (.num 999) (some "newname") 0).calls = [.findById 999] ∧
      (SubredditService.deleteSubreddit
          { rows := [{ id := 1, name := "gaming", createdAt := 0, updatedAt := 0 }],
            nextId := 2 } (.num 999)).res =
        .error (.notFound "Subreddit with ID 999 not found") ∧
      (SubredditService.deleteSubreddit
          { rows := [{ id := 1, name := "gaming", createdAt := 0, updatedAt := 0 }],
            nextId := 2 } (.num 999)).calls = [.findById 999]) ∧
    ((PostService.getPostById
          { rows := [{ id := 1, title := "Hello", description := none, links := none,
                       createdAt := 0, updatedAt := 0 }], nextId := 2 } (.num 999)).res =
        .error (.notFound "Post with ID 999 not found") ∧
      (PostService.updatePost
          { rows := [{ id := 1, title := "Hello", description := none, links := none,
                       createdAt := 0, updatedAt := 0 }], nextId := 2 }
          (.num 999) (some "New title") none none 0).res =
        .error (.notFound "Post with ID 999 not found.") ∧
      (PostService.updatePost
          { rows := [{ id := 1, title := "Hello", description := none, links := none,
                       createdAt := 0, updatedAt := 0 }], nextId := 2 }
          (.num 999) (some "New title") none none 0).calls = [.findById 999] ∧
      (PostService.deletePost
          { rows := [{ id := 1, title := "Hello", description := none, links := none,
                       createdAt := 0, updatedAt := 0 }], nextId := 2 } (.num 999)).res =
        .error (.notFound "Post with ID 999 not found") ∧
      (PostService.deletePost
          { rows := [{ id := 1, title := "Hello", description := none, links := none,
                       createdAt := 0, updatedAt := 0 }], nextId := 2 } (.num 999)).calls =
        [.findById 999]) := by
  decide

/-- A value placed between two message fragments is mentioned in the
resulting message. -/
theorem mentions_concat (a v b : String) : mentions (a ++ v ++ b) v :=
  ⟨a.data, b.data, by simp⟩

/-! ## Claim C1 — duplicate creates fail without inserting -/

/-- C1, as stated, is false on two counts: `createPost` reports a duplicate
with the fixed message `Duplicate post exists`, which does not name the
normalized title; and `createKeyword` cannot even reach its duplicate
check — the repository has no `exists` method, so it fails with a
`TypeError` for every input (here shown on a duplicate input). -/
theorem C1_counterexample :
    (PostService.createPost
        { rows := [{ id := 1, title := "Sale", description := none, links := none,
                     createdAt := 0, updatedAt := 0 }], nextId := 2 }
        { title := some "Sale" } 0).res = .error (.duplicate "Duplicate post exists") ∧
      ¬ mentions "Duplicate post exists" "Sale" ∧
      (KeywordService.createKeyword (some "gaming")).res =
        .error (.typeError "this.keywordRepository.exists is not a function") := by
  decide

/-- C1 (amended): for Subreddit and Post, creating an entity whose
normalized unique key already exists fails with a `DuplicateError` — naming
the normalized value for Subreddit but using the fixed message `Duplicate
post exists` for Post — and the repository `create` is never invoked and
storage is unchanged; for Keyword, `createKeyword` fails on every input
before any duplicate check (missing repository `exists` method), so its
repository `create` is likewise never invoked. -/
theorem C1_duplicate_create_no_insert (ts : SubTable) (name : Option String) (s : String)
    (now1 : Int) (tp : PostTable) (input : PostCreateInput) (v : PostCreateValue)
    (now2 : Int) (kw : Option String)
    (hvs : SubredditValidation.createValidate name = .ok s)
    (hexs : SubredditRepository.existsName ts (normalizeSubredditName s) = true)
    (hvp : PostValidation.createValidate input = .ok v)
    (hexp : PostRepository.existsTitle tp (jsTrim v.title) = true) :
    ((SubredditService.createSubreddit ts name now1).res =
        .error (.duplicate ("Subreddit " ++ normalizeSubredditName s ++ " already exists")) ∧
      mentions ("Subreddit " ++ normalizeSubredditName s ++ " already exists")
        (normalizeSubredditName s) ∧
      RepoCall.createRow ∉ (SubredditService.createSubreddit ts name now1).calls ∧
      (SubredditService.createSubreddit ts name now1).db = ts) ∧
    ((PostService.createPost tp input now2).res = .error (.duplicate "Duplicate post exists") ∧
      RepoCall.createRow ∉ (PostService.createPost tp input now2).calls ∧
      (PostService.createPost tp input now2).db = tp) ∧
    ((∃ e, (KeywordService.createKeyword kw).res = .error e) ∧
      RepoCall.createRow ∉ (KeywordService.createKeyword kw).calls) := by
  refine ⟨?_, ?_, ?_⟩
  · simp only [SubredditService.createSubreddit, hvs]
    rw [if_pos hexs]
    exact ⟨rfl, mentions_concat "Subreddit " (normalizeSubredditName s) " already exists",
      by simp, rfl⟩
  · simp only [PostService.createPost, hvp]
    rw [if_pos hexp]
    exact ⟨rfl, by simp, rfl⟩
  · cases hv : KeywordValidation.createValidate kw with
    | error m =>
      simp only [KeywordService.createKeyword, hv]
      exact ⟨⟨_, rfl⟩, by simp⟩
    | ok w =>
      simp only [KeywordService.createKeyword, hv]
      exact ⟨⟨_, rfl⟩, by simp⟩

/-- Witness for C1 at concrete duplicate inputs (`r/Gaming` over a stored
`gaming`; `" Sale "` over a stored `Sale`). -/
theorem C1_witness :
    SubredditValidation.createValidate (some "r/Gaming") = .ok "r/Gaming" ∧
      SubredditRepository.existsName
        { rows := [{ id := 1, name := "gaming", createdAt := 0, updatedAt := 0 }], nextId := 2 }
        (normalizeSubredditName "r/Gaming") = true ∧
      (SubredditService.createSubreddit
          { rows := [{ id := 1, name := "gaming", createdAt := 0, updatedAt := 0 }],
            nextId := 2 } (some "r/Gaming") 7).res =
        .error (.duplicate
          ("Subreddit " ++ normalizeSubredditName "r/Gaming" ++ " already exists")) ∧
      (PostService.createPost
          { rows := [{ id := 1, title := "Sale", description := none, links := none,
                       createdAt := 0, updatedAt := 0 }], nextId := 2 }
          { title := some " Sale " } 7).res = .error (.duplicate "Duplicate post exists") :=
  ⟨by decide, by decide,
    (C1_duplicate_create_no_insert
      { rows := [{ id := 1, name := "gaming", createdAt := 0, updatedAt := 0 }], nextId := 2 }
      (some "r/Gaming") "r/Gaming" 7
      { rows := [{ id := 1, title := "Sale", description := none, links := none,
                   createdAt := 0, updatedAt := 0 }], nextId := 2 }
      { title := some " Sale " } { title := " Sale ", description := none, links := [] } 7
      (some "gaming") (by decide) (by decide) (by decide) (by decide)).1.1,
    (C1_duplicate_create_no_insert
      { rows := [{ id := 1, name := "gaming", createdAt := 0, updatedAt := 0 }], nextId := 2 }
      (some "r/Gaming") "r/Gaming" 7
      { rows := [{ id := 1, title := "Sale", description := none, links := none,
                   createdAt := 0, updatedAt := 0 }], nextId := 2 }
      { title := some " Sale " } { title := " Sale ", description := none, links := [] } 7
      (some "gaming") (by decide) (by decide) (by decide) (by decide)).2.1.1⟩

/-! ## Claim C3 — created entities carry the normalized unique field -/

theorem subCreateValidate_ok {name : Option String} {s : String}
    (h : SubredditValidation.createValidate name = .ok s) : name = some s := by
  cases name with
  | none => exact Except.noConfusion h
  | some x =>
    simp only [SubredditValidation.createValidate] at h
    split_ifs at h
    all_goals first
      | exact Except.noConfusion h
      | (injection h with h3; rw [h3])

theorem postCreateValidate_ok {t? : Option String} {d? : Option (Option String)}
    {l? : Option (List String)} {v : PostCreateValue}
    (h : PostValidation.createValidate { title := t?, description := d?, links := l? } = .ok v) :
    t? = some v.title := by
  cases t? with
  | none => exact Except.noConfusion h
  | some x =>
    simp only [PostValidation.createValidate] at h
    split_ifs at h
    rcases hd : PostValidation.validateDescription d? with m | d <;> rw [hd] at h
    · exact Except.noConfusion h
    · rcases hl : PostValidation.validateLinks l? with m | ls <;> rw [hl] at h
      · exact Except.noConfusion h
      · injection h with h3
        rw [← h3]

theorem jsOrNullStr_some_inv {v nm : String} (h : jsOrNullStr (some v) = some nm) :
    nm = v ∧ v ≠ "" := by
  simp only [jsOrNullStr] at h
  split_ifs at h with h1
  injection h with h2
  exact ⟨h2.symm, h1⟩

theorem subFindById_fresh (t : SubTable) (hwf : ∀ r ∈ t.rows, r.id < t.nextId)
    (row : SubRow) (h : row.id = t.nextId) :
    SubredditRepository.findById { rows := t.rows ++ [row], nextId := t.nextId + 1 }
      t.nextId = some (Subreddit.fromRow row) := by
  unfold SubredditRepository.findById
  simp only [List.find?_append]
  have h1 : t.rows.find? (fun r => r.id = t.nextId) = none := by
    rw [List.find?_eq_none]
    intro x hx
    simp only [decide_eq_true_eq]
    exact (hwf x hx).ne
  rw [h1]
  simp [List.find?, h]

theorem postFindById_fresh (t : PostTable) (hwf : ∀ r ∈ t.rows, r.id < t.nextId)
    (row : PostRow) (h : row.id = t.nextId) :
    PostRepository.findById { rows := t.rows ++ [row], nextId := t.nextId + 1 }
      t.nextId = some (Post.fromRow row) := by
  unfold PostRepository.findById
  simp only [List.find?_append]
  have h1 : t.rows.find? (fun r => r.id = t.nextId) = none := by
    rw [List.find?_eq_none]
    intro x hx
    simp only [decide_eq_true_eq]
    exact (hwf x hx).ne
  rw [h1]
  simp [List.find?, h]

/-- C3: whenever a service create returns an entity (over any well-formed
table — row ids below the autoincrement counter), the entity's unique text
field is the normalized form of the supplied value: trimmed + lowercased +
`r/`-stripped for Subreddit, trimmed for Post, and (vacuously, since the
broken Keyword vertical never returns) trimmed for Keyword; when
normalization changes the value, the raw input is never returned. -/
theorem C3_create_returns_normalized_field (ts : SubTable) (name : Option String) (now1 : Int)
    (sub : Subreddit) (tp : PostTable) (t? : Option String) (d? : Option (Option String))
    (l? : Option (List String)) (now2 : Int) (p : Post) (kw : Option String) (k : Keyword)
    (hwfs : ∀ r ∈ ts.rows, r.id < ts.nextId)
    (hwfp : ∀ r ∈ tp.rows, r.id < tp.nextId)
    (hs : (SubredditService.createSubreddit ts name now1).res = .ok sub)
    (hp : (PostService.createPost tp { title := t?, description := d?, links := l? }
      now2).res = .ok p) :
    (∃ s, name = some s ∧ sub.name = some (normalizeSubredditName s) ∧
      (normalizeSubredditName s ≠ s → sub.name ≠ some s)) ∧
    (∃ st, t? = some st ∧ p.title = jsTrim st ∧ (jsTrim st ≠ st → p.title ≠ st)) ∧
    ((KeywordService.createKeyword kw).res = .ok k → k.keyword = jsTrim (kw.getD "")) := by
  refine ⟨?_, ?_, ?_⟩
  · cases hv : SubredditValidation.createValidate name with
    | error m =>
      simp only [SubredditService.createSubreddit, hv] at hs
      exact Except.noConfusion hs
    | ok s =>
      have hname := subCreateValidate_ok hv
      simp only [SubredditService.createSubreddit, hv] at hs
      cases hex : SubredditRepository.existsName ts (normalizeSubredditName s) with
      | true => rw [hex] at hs; simp at hs
      | false =>
        rw [hex] at hs
        simp only [Bool.false_eq_true, if_false] at hs
        simp only [SubredditRepository.create] at hs
        cases hnm : jsOrNullStr (some (normalizeSubredditName s)) with
        | none => rw [hnm] at hs; simp at hs
        | some nm2 =>
          obtain ⟨hnm2, hne⟩ := jsOrNullStr_some_inv hnm
          rw [hnm] at hs
          simp only at hs
          rw [show ts.rows.any (fun r => r.name = nm2) = false by
            rw [hnm2]; exact hex] at hs
          simp only [Bool.false_eq_true, if_false] at hs
          rw [subFindById_fresh ts hwfs _ rfl] at hs
          simp only at hs
          injection hs with hsub
          have hsubname : sub.name = some (normalizeSubredditName s) := by
            rw [← hsub]
            simp [Subreddit.fromRow, Subreddit.ofData, jsOrNullStr, hnm2, hne]
          refine ⟨s, hname, hsubname, ?_⟩
          intro hd hcontra
          rw [hsubname] at hcontra
          injection hcontra with hcontra2
          exact hd hcontra2
  · cases hv : PostValidation.createValidate
        { title := t?, description := d?, links := l? } with
    | error m =>
      simp only [PostService.createPost, hv] at hp
      exact Except.noConfusion hp
    | ok v =>
      have htitle := postCreateValidate_ok hv
      simp only [PostService.createPost, hv] at hp
      cases hex : PostRepository.existsTitle tp (jsTrim v.title) with
      | true => rw [hex] at hp; simp at hp
      | false =>
        rw [hex] at hp
        simp only [Bool.false_eq_true, if_false] at hp
        simp only [PostRepository.create] at hp
        rw [postFindById_fresh tp hwfp _ rfl] at hp
        simp only at hp
        injection hp with hpost
        have htit : p.title = jsTrim v.title := by
          rw [← hpost]
          rfl
        refine ⟨v.title, htitle, htit, ?_⟩
        intro hd hcontra
        rw [htit] at hcontra
        exact hd hcontra
  · intro hk
    exfalso
    cases hv : KeywordValidation.createValidate kw with
    | error m =>
      simp only [KeywordService.createKeyword, hv] at hk
      exact Except.noConfusion hk
    | ok w =>
      simp only [KeywordService.createKeyword, hv] at hk
      exact Except.noConfusion hk

/-- Witness for C3: creating `"  R/Gaming "` returns name `"gaming"` and
creating title `" Gaming Deal "` returns title `"Gaming Deal"`. -/
theorem C3_witness :
    (SubredditService.createSubreddit { rows := [], nextId := 1 } (some "  R/Gaming ") 5).res =
        .ok { id := some 1, name := some "gaming", createdAt := some 5, updatedAt := some 5 } ∧
      (∃ s, (some "  R/Gaming " : Option String) = some s ∧
        ({ id := some 1, name := some "gaming", createdAt := some 5,
           updatedAt := some 5 } : Subreddit).name = some (normalizeSubredditName s) ∧
        (normalizeSubredditName s ≠ s →
          ({ id := some 1, name := some "gaming", createdAt := some 5,
             updatedAt := some 5 } : Subreddit).name ≠ some s)) ∧
      (∃ st, (some " Gaming Deal " : Option String) = some st ∧
        ({ id := some 1, title := "Gaming Deal", description := none, links := [],
           createdAt := some 5, updatedAt := some 5 } : Post).title = jsTrim st ∧
        (jsTrim st ≠ st →
          ({ id := some 1, title := "Gaming Deal", description := none, links := [],
             createdAt := some 5, updatedAt := some 5 } : Post).title ≠ st)) :=
  ⟨by decide,
    (C3_create_returns_normalized_field { rows := [], nextId := 1 } (some "  R/Gaming ") 5
      { id := some 1, name := some "gaming", createdAt := some 5, updatedAt := some 5 }
      { rows := [], nextId := 1 } (some " Gaming Deal ") none none 5
      { id := some 1, title := "Gaming Deal", description := none, links := [],
        createdAt := some 5, updatedAt := some 5 }
      none (Keyword.ofData none none none none)
      (by decide) (by decide) (by decide) (by decide)).1,
    (C3_create_returns_normalized_field { rows := [], nextId := 1 } (some "  R/Gaming ") 5
      { id := some 1, name := some "gaming", createdAt := some 5, updatedAt := some 5 }
      { rows := [], nextId := 1 } (some " Gaming Deal ") none none 5
      { id := some 1, title := "Gaming Deal", description := none, links := [],
        createdAt := some 5, updatedAt := some 5 }
      none (Keyword.ofData none none none none)
      (by decide) (by decide) (by decide) (by decide)).2.1⟩

/-! ## Claim C4 — what updateSubreddit writes for a changed name -/

theorem subFind?_map_update (l : List SubRow) (n : Int) (g : SubRow → SubRow)
    (hg : ∀ r, (g r).id = r.id) :
    (l.map g).find? (fun r => r.id = n) = (l.find? (fun r => r.id = n)).map g := by
  induction l with
  | nil => rfl
  | cons a as ih =>
    by_cases ha : a.id = n
    · simp [List.find?, hg, ha]
    · simp [List.find?, hg, ha, ih]

theorem subUpdate_eval (t : SubTable) (n : Int) (s' : String) (now : Int) (r0 : SubRow)
    (hfind : t.rows.find? (fun r => r.id = n) = some r0)
    (hne : s' ≠ "")
    (huniq : t.rows.any (fun r => r.id ≠ n ∧ r.name = s') = false) :
    SubredditRepository.update t n (some s') now =
      { res := .ok (some (Subreddit.fromRow { r0 with name := s', updatedAt := now })),
        db := { rows := t.rows.map (fun r =>
                    if r.id = n then { r with name := s', updatedAt := now } else r),
                nextId := t.nextId } } := by
  have hr0 : r0.id = n := by
    have := List.find?_some hfind
    simpa using this
  have hfb : SubredditRepository.findById t n = some (Subreddit.fromRow r0) := by
    unfold SubredditRepository.findById
    rw [hfind]
    rfl
  have hm := subFind?_map_update t.rows n
    (fun r => if r.id = n then { r with name := s', updatedAt := now } else r)
    (fun r => by by_cases h : r.id = n <;> simp [h])
  unfold SubredditRepository.update
  rw [hfb]
  simp only
  rw [show jsOrNullStr (some s') = some s' by simp [jsOrNullStr, hne]]
  simp only [huniq, Bool.false_eq_true, if_false]
  unfold SubredditRepository.findById
  rw [hm, hfind]
  simp only [Option.map_some']
  rw [if_pos hr0]

theorem subUpdate_eval_notnull (t : SubTable) (n : Int) (now : Int) (r0 : SubRow)
    (hfind : t.rows.find? (fun r => r.id = n) = some r0) :
    SubredditRepository.update t n (some "") now =
      { res := .error (.repo "Failed to update subreddit: NOT NULL constraint failed: subreddits.name"),
        db := t } := by
  have hfb : SubredditRepository.findById t n = some (Subreddit.fromRow r0) := by
    unfold SubredditRepository.findById
    rw [hfind]
    rfl
  unfold SubredditRepository.update
  rw [hfb]
  rfl

theorem subUpdate_eval_unique (t : SubTable) (n : Int) (s' : String) (now : Int) (r0 : SubRow)
    (hfind : t.rows.find? (fun r => r.id = n) = some r0)
    (hne : s' ≠ "")
    (huniq : t.rows.any (fun r => r.id ≠ n ∧ r.name = s') = true) :
    SubredditRepository.update t n (some s') now =
      { res := .error (.repo "Failed to update subreddit: UNIQUE constraint failed: subreddits.name"),
        db := t } := by
  have hfb : SubredditRepository.findById t n = some (Subreddit.fromRow r0) := by
    unfold SubredditRepository.findById
    rw [hfind]
    rfl
  unfold SubredditRepository.update
  rw [hfb]
  simp only
  rw [show jsOrNullStr (some s') = some s' by simp [jsOrNullStr, hne]]
  simp only [huniq, if_true]

/-- C4, as stated, is false: updating subreddit 1 (stored name `"gaming"`)
with `{name: "R/Gaming"}` writes `"R/Gaming"` to storage, not the full
normalization `"gaming"` — update only trims, it neither lowercases nor
strips the `r/` prefix. -/
theorem C4_counterexample :
    ((SubredditService.updateSubreddit
        { rows := [{ id := 1, name := "gaming", createdAt := 0, updatedAt := 0 }], nextId := 2 }
        (.num 1) (some "R/Gaming") 9).db.rows.map (fun r => r.name)) = ["R/Gaming"] ∧
      (SubredditService.updateSubreddit
        { rows := [{ id := 1, name := "gaming", createdAt := 0, updatedAt := 0 }], nextId := 2 }
        (.num 1) (some "R/Gaming") 9).res =
        .ok (some { id := some 1, name := some "R/Gaming", createdAt := none,
                    updatedAt := some 9 }) ∧
      normalizeSubredditName "R/Gaming" = "gaming" ∧ ("R/Gaming" : String) ≠ "gaming" := by
  decide

/-- C4 (amended): when `updateSubreddit` succeeds with a patch name
different from the stored name, the value written to storage (and carried
by the returned entity) is only `value.name.trim()` — the trimmed patch
name, without the lowercasing and `r/`-stripping that create applies. -/
theorem C4_update_writes_trimmed_name_only (t : SubTable) (id : JsId) (n : Int) (s : String)
    (now : Int) (r0 : SubRow) (sub : Subreddit)
    (hid : id.parseInt = some n)
    (hfind : t.rows.find? (fun r => r.id = n) = some r0)
    (hdiff : (Subreddit.fromRow r0).name ≠ some s)
    (hok : (SubredditService.updateSubreddit t id (some s) now).res = .ok (some sub)) :
    sub.name = some (jsTrim s) ∧
      ((SubredditService.updateSubreddit t id (some s) now).db.rows.find?
        (fun r => r.id = n)) = some { r0 with name := jsTrim s, updatedAt := now } := by
  have hr0 : r0.id = n := by
    have := List.find?_some hfind
    simpa using this
  have hfb : SubredditRepository.findById t n = some (Subreddit.fromRow r0) := by
    unfold SubredditRepository.findById
    rw [hfind]
    rfl
  by_cases hs0 : s = ""
  · have hres : (SubredditService.updateSubreddit t id (some s) now).res =
        .error (.validation ("Validation error: " ++ "\"name\" is not allowed to be empty")) := by
      simp only [SubredditService.updateSubreddit, hid, SubredditValidation.updateValidate]
      rw [if_pos hs0]
    rw [hres] at hok
    exact Except.noConfusion hok
  by_cases hs5 : s.length > 500
  · have hres : (SubredditService.updateSubreddit t id (some s) now).res =
        .error (.validation ("Validation error: " ++
          "\"name\" length must be less than or equal to 500 characters long")) := by
      simp only [SubredditService.updateSubreddit, hid, SubredditValidation.updateValidate]
      rw [if_neg hs0, if_pos hs5]
    rw [hres] at hok
    exact Except.noConfusion hok
  have hval : SubredditValidation.updateValidate id.parseInt (some s) = .ok (n, some s) := by
    rw [hid]
    simp only [SubredditValidation.updateValidate]
    rw [if_neg hs0, if_neg hs5]
  have hred : SubredditService.updateSubreddit t id (some s) now =
      (if SubredditRepository.existsName t (jsTrim s) then
        { res := .error (.duplicate ("Subreddit " ++ jsTrim s ++ " already exists")), db := t,
          calls := [.findById n, .existsKey (jsTrim s)] }
      else
        { res := (SubredditRepository.update t n (some (jsTrim s)) now).res,
          db := (SubredditRepository.update t n (some (jsTrim s)) now).db,
          calls := [.findById n, .existsKey (jsTrim s), .updateRow n] }) := by
    simp only [SubredditService.updateSubreddit, hval, hfb]
    rw [if_pos hdiff]
  cases hex : SubredditRepository.existsName t (jsTrim s) with
  | true =>
    rw [hred, if_pos hex] at hok
    exact Except.noConfusion hok
  | false =>
    rw [hred] at hok ⊢
    rw [if_neg (by simp [hex])] at hok ⊢
    by_cases htr : jsTrim s = ""
    · rw [htr, subUpdate_eval_notnull t n now r0 hfind] at hok
      exact Except.noConfusion hok
    cases huniq : t.rows.any (fun r => r.id ≠ n ∧ r.name = jsTrim s) with
    | true =>
      rw [subUpdate_eval_unique t n (jsTrim s) now r0 hfind htr huniq] at hok
      exact Except.noConfusion hok
    | false =>
      rw [subUpdate_eval t n (jsTrim s) now r0 hfind htr huniq] at hok ⊢
      simp only at hok
      injection hok with hok2
      injection hok2 with hok3
      have hm := subFind?_map_update t.rows n
        (fun r => if r.id = n then { r with name := jsTrim s, updatedAt := now } else r)
        (fun r => by by_cases h : r.id = n <;> simp [h])
      constructor
      · rw [← hok3]
        simp [Subreddit.fromRow, Subreddit.ofData, jsOrNullStr, htr]
      · simp only
        rw [hm, hfind]
        simp [hr0]

/-- Witness for C4 at the counterexample instance. -/
theorem C4_witness :
    (SubredditService.updateSubreddit
        { rows := [{ id := 1, name := "gaming", createdAt := 0, updatedAt := 0 }], nextId := 2 }
        (.num 1) (some "R/Gaming") 9).res =
      .ok (some { id := some 1, name := some "R/Gaming", createdAt := none,
                  updatedAt := some 9 }) ∧
    ({ id := some 1, name := some "R/Gaming", createdAt := none,
       updatedAt := some 9 } : Subreddit).name = some (jsTrim "R/Gaming") ∧
    ((SubredditService.updateSubreddit
        { rows := [{ id := 1, name := "gaming", createdAt := 0, updatedAt := 0 }], nextId := 2 }
        (.num 1) (some "R/Gaming") 9).db.rows.find? (fun r => r.id = 1)) =
      some { id := 1, name := jsTrim "R/Gaming", createdAt := 0, updatedAt := 9 } :=
  ⟨by decide,
    (C4_update_writes_trimmed_name_only
      { rows := [{ id := 1, name := "gaming", createdAt := 0, updatedAt := 0 }], nextId := 2 }
      (.num 1) 1 "R/Gaming" 9 { id := 1, name := "gaming", createdAt := 0, updatedAt := 0 }
      { id := some 1, name := some "R/Gaming", createdAt := none, updatedAt := some 9 }
      (by decide) (by decide) (by decide) (by decide)).1,
    (C4_update_writes_trimmed_name_only
      { rows := [{ id := 1, name := "gaming", createdAt := 0, updatedAt := 0 }], nextId := 2 }
      (.num 1) 1 "R/Gaming" 9 { id := 1, name := "gaming", createdAt := 0, updatedAt := 0 }
      { id := some 1, name := some "R/Gaming", createdAt := none, updatedAt := some 9 }
      (by decide) (by decide) (by decide) (by decide)).2⟩

/-! ## Claim C8 — the pagination law of findAll -/

theorem ceil_div_formula (a b : Nat) (hb : 1 ≤ b) :
    ⌈(a : ℚ) / (b : ℚ)⌉ = (((a + b - 1) / b : Nat) : Int) := by
  have hb0 : (0 : ℚ) < (b : ℚ) := by exact_mod_cast hb
  have hmod := Nat.div_add_mod (a + b - 1) b
  set q := (a + b - 1) / b with hq
  set r := (a + b - 1) % b with hr
  have hrlt : r < b := Nat.mod_lt _ hb
  have h1 : a ≤ b * q := by omega
  have h2 : b * q < a + b := by omega
  rw [Int.ceil_eq_iff]
  constructor
  · rw [show ((((q : Nat) : Int) : ℚ) - 1) = ((q : ℚ) - 1) by push_cast; ring]
    rw [lt_div_iff₀ hb0]
    have : (q : ℚ) * b < a + b := by
      rw [mul_comm]
      exact_mod_cast h2
    linarith
  · rw [div_le_iff₀ hb0]
    have : (a : ℚ) ≤ (q : ℚ) * b := by
      rw [mul_comm]
      exact_mod_cast h1
    exact_mod_cast this

theorem int_ceil_div (a : Nat) (b : Int) (hb : 1 ≤ b) :
    ((a : Int) + b - 1) / b = ⌈(a : ℚ) / ((b : Int) : ℚ)⌉ := by
  obtain ⟨L, hL⟩ : ∃ L : Nat, b = (L : Int) := ⟨b.toNat, (Int.toNat_of_nonneg (by omega)).symm⟩
  subst hL
  have hL1 : 1 ≤ L := by exact_mod_cast hb
  have hcast : ((a : Int) + (L : Int) - 1) = ((a + L - 1 : Nat) : Int) := by
    have : 1 ≤ a + L := by omega
    push_cast [Nat.cast_sub this]
    ring
  rw [hcast, show ((L : Int) : ℚ) = (L : ℚ) by push_cast; rfl, ceil_div_formula a L hL1]
  exact (Int.natCast_div (a + L - 1) L).symm

/-- C8: for `SubredditRepository.findAll` and `PostRepository.findAll` with
`page ≥ 1` and `limit ≥ 1`, `total` counts all rows matching the filters
independent of pagination, `pages` is the rational ceiling of
`total / limit`, and a page whose offset lies at or beyond the matching
data yields an empty item sequence (with the same, still-correct total). -/
theorem C8_pagination_law (ts : SubTable) (os : SubFindAllOptions) (tp : PostTable)
    (op : PostFindAllOptions)
    (hps : 1 ≤ os.page) (hls : 1 ≤ os.limit) (hpp : 1 ≤ op.page) (hlp : 1 ≤ op.limit) :
    ((SubredditRepository.findAll ts os).total =
        (ts.rows.filter (SubredditRepository.matchesSearch os.search)).length ∧
      (SubredditRepository.findAll ts os).pages =
        ⌈(((SubredditRepository.findAll ts os).total : Int) : ℚ) / ((os.limit : Int) : ℚ)⌉ ∧
      ((os.page - 1) * os.limit ≥ ((SubredditRepository.findAll ts os).total : Int) →
        (SubredditRepository.findAll ts os).subreddits = [])) ∧
    ((PostRepository.findAll tp op).total =
        (tp.rows.filter (PostRepository.matchesPostFilters op)).length ∧
      (PostRepository.findAll tp op).pages =
        ⌈(((PostRepository.findAll tp op).total : Int) : ℚ) / ((op.limit : Int) : ℚ)⌉ ∧
      ((op.page - 1) * op.limit ≥ ((PostRepository.findAll tp op).total : Int) →
        (PostRepository.findAll tp op).posts = [])) := by
  refine ⟨⟨rfl, ?_, ?_⟩, rfl, ?_, ?_⟩
  · show (if 0 < os.limit then
        (((ts.rows.filter (SubredditRepository.matchesSearch os.search)).length : Int) +
          os.limit - 1) / os.limit else 0) = _
    rw [if_pos (by omega)]
    rw [int_ceil_div _ os.limit hls]
    rfl
  · intro h
    show (((sortByLe (fun a b => decide (a.name ≤ b.name))
        (ts.rows.filter (SubredditRepository.matchesSearch os.search))).drop
          ((os.page - 1) * os.limit).toNat).take os.limit.toNat).map Subreddit.fromRow = []
    have hlen : (sortByLe (fun a b => decide (a.name ≤ b.name))
        (ts.rows.filter (SubredditRepository.matchesSearch os.search))).length ≤
        ((os.page - 1) * os.limit).toNat := by
      rw [length_sortByLe]
      have hoff : (0 : Int) ≤ (os.page - 1) * os.limit := by
        apply mul_nonneg <;> omega
      rw [← Int.toNat_of_nonneg hoff] at h
      exact_mod_cast Int.toNat_le_toNat h
    rw [List.drop_eq_nil_of_le hlen]
    simp
  · show (if 0 < op.limit then
        (((tp.rows.filter (PostRepository.matchesPostFilters op)).length : Int) +
          op.limit - 1) / op.limit else 0) = _
    rw [if_pos (by omega)]
    rw [int_ceil_div _ op.limit hlp]
    rfl
  · intro h
    show (((sortByLe (fun a b => decide (b.createdAt ≤ a.createdAt))
        (tp.rows.filter (PostRepository.matchesPostFilters op))).drop
          ((op.page - 1) * op.limit).toNat).take op.limit.toNat).map Post.fromRow = []
    have hlen : (sortByLe (fun a b => decide (b.createdAt ≤ a.createdAt))
        (tp.rows.filter (PostRepository.matchesPostFilters op))).length ≤
        ((op.page - 1) * op.limit).toNat := by
      rw [length_sortByLe]
      have hoff : (0 : Int) ≤ (op.page - 1) * op.limit := by
        apply mul_nonneg <;> omega
      rw [← Int.toNat_of_nonneg hoff] at h
      exact_mod_cast Int.toNat_le_toNat h
    rw [List.drop_eq_nil_of_le hlen]
    simp

/-- Witness for C8: page 5 of a three-row subreddit table and page 9 of a
one-row post table are empty while the totals stay correct. -/
theorem C8_witness :
    (SubredditRepository.findAll
        { rows := [{ id := 1, name := "alpha", createdAt := 0, updatedAt := 0 },
                   { id := 2, name := "beta", createdAt := 0, updatedAt := 0 },
                   { id := 3, name := "gamma", createdAt := 0, updatedAt := 0 }], nextId := 4 }
        { page := 5, limit := 2 }).subreddits = [] ∧
      (PostRepository.findAll
        { rows := [{ id := 1, title := "t", description := none, links := none,
                     createdAt := 0, updatedAt := 0 }], nextId := 2 }
        { page := 9, limit := 3 }).posts = [] :=
  ⟨(C8_pagination_law
      { rows := [{ id := 1, name := "alpha", createdAt := 0, updatedAt := 0 },
                 { id := 2, name := "beta", createdAt := 0, updatedAt := 0 },
                 { id := 3, name := "gamma", createdAt := 0, updatedAt := 0 }], nextId := 4 }
      { page := 5, limit := 2 }
      { rows := [{ id := 1, title := "t", description := none, links := none,
                   createdAt := 0, updatedAt := 0 }], nextId := 2 }
      { page := 9, limit := 3 }
      (by decide) (by decide) (by decide) (by decide)).1.2.2 (by decide),
    (C8_pagination_law
      { rows := [{ id := 1, name := "alpha", createdAt := 0, updatedAt := 0 },
                 { id := 2, name := "beta", createdAt := 0, updatedAt := 0 },
                 { id := 3, name := "gamma", createdAt := 0, updatedAt := 0 }], nextId := 4 }
      { page := 5, limit := 2 }
      { rows := [{ id := 1, title := "t", description := none, links := none,
                   createdAt := 0, updatedAt := 0 }], nextId := 2 }
      { page := 9, limit := 3 }
      (by decide) (by decide) (by decide) (by decide)).2.2.2 (by decide)⟩

/-! ## Claim C10 — the `hasLinks: true` filter on `getAllPosts`

`PostRepository.findAll` filters with `whereNotNull('links').whereNot('links', '[]')`,
a purely textual test on the serialized column, while `Post.parseLinks` maps
both `''` and whitespace-padded `'[]'` (among others) to the empty array — so
a stored row can pass the filter yet surface with an empty parsed `links`. -/

/-- A link string free of characters the JSON serializer would escape. -/
def cleanLinkB (s : String) : Bool :=
  s.data.all (fun c => !(c = '"') && !(c = '\\'))

/-- All links in the list are escape-free. -/
def cleanLinksB (ls : List String) : Bool :=
  ls.all cleanLinkB

theorem cleanLinksB_prop {ls : List String} (h : cleanLinksB ls = true) :
    ∀ s ∈ ls, ∀ c ∈ s.data, c ≠ '"' ∧ c ≠ '\\' := by
  intro s hs c hc
  have h1 := List.all_eq_true.mp h s hs
  have h2 := List.all_eq_true.mp h1 c hc
  simpa using h2

theorem jsonEscapeChars_clean (l : List Char) (h : ∀ c ∈ l, c ≠ '"' ∧ c ≠ '\\') :
    jsonEscapeChars l = l := by
  induction l with
  | nil => rfl
  | cons c cs ih =>
    have hc := h c (List.mem_cons_self c cs)
    simp only [jsonEscapeChars]
    rw [if_neg (by simp [hc.1, hc.2])]
    rw [ih (fun d hd => h d (List.mem_cons_of_mem c hd))]

theorem parseJStrBody_clean (l : List Char) (h : ∀ c ∈ l, c ≠ '"' ∧ c ≠ '\\')
    (rest : List Char) :
    parseJStrBody (l ++ '"' :: rest) = some (l, rest) := by
  induction l with
  | nil =>
    rw [parseJStrBody.eq_def]
    simp
  | cons c cs ih =>
    have hc := h c (List.mem_cons_self c cs)
    show parseJStrBody (c :: (cs ++ '"' :: rest)) = some (c :: cs, rest)
    rw [parseJStrBody.eq_def]
    simp only
    rw [if_neg hc.1, if_neg hc.2, ih (fun d hd => h d (List.mem_cons_of_mem c hd))]

theorem encodeElemsChars_cons_head (s : String) (ss : List String) :
    ∃ tail, encodeElemsChars (s :: ss) = '"' :: tail := by
  cases ss with
  | nil => exact ⟨_, rfl⟩
  | cons a as => exact ⟨_, rfl⟩

theorem length_le_encodeElems (ls : List String) :
    ls.length ≤ (encodeElemsChars ls).length := by
  induction ls with
  | nil => simp [encodeElemsChars]
  | cons s ss ih =>
    cases ss with
    | nil => simp [encodeElemsChars, jsonQuoteChars]
    | cons a as =>
      simp only [encodeElemsChars, jsonQuoteChars, List.length_append, List.length_cons]
      simp only [List.length_cons] at ih
      omega

/-- The element parser recovers an escape-free serialized list exactly. -/
theorem parseElemsAux_encode :
    ∀ ls : List String, ls ≠ [] →
      (∀ s ∈ ls, ∀ c ∈ s.data, c ≠ '"' ∧ c ≠ '\\') →
      ∀ fuel, ls.length ≤ fuel →
      parseElemsAux fuel (encodeElemsChars ls ++ [']']) = some (ls, []) := by
  intro ls
  induction ls with
  | nil => intro h; exact absurd rfl h
  | cons s ss ih =>
    intro _ hcl fuel hfuel
    have hclean : jsonEscapeChars s.data = s.data :=
      jsonEscapeChars_clean _ (hcl s (List.mem_cons_self s ss))
    cases fuel with
    | zero => simp at hfuel
    | succ f =>
      cases ss with
      | nil =>
        show parseElemsAux (f + 1) (jsonQuoteChars s ++ [']']) = some ([s], [])
        simp only [jsonQuoteChars, hclean]
        have hassoc : ('"' :: (s.data ++ ['"'])) ++ [']'] = '"' :: (s.data ++ '"' :: [']']) := by
          simp
        rw [hassoc]
        simp only [parseElemsAux]
        rw [parseJStrBody_clean s.data (hcl s (List.mem_cons_self s [])) [']']]
        simp [isJsonWs]
      | cons s2 ss2 =>
        show parseElemsAux (f + 1)
          ((jsonQuoteChars s ++ ',' :: encodeElemsChars (s2 :: ss2)) ++ [']']) =
          some (s :: s2 :: ss2, [])
        simp only [jsonQuoteChars, hclean]
        have hassoc : (('"' :: (s.data ++ ['"'])) ++ ',' :: encodeElemsChars (s2 :: ss2)) ++ [']'] =
            '"' :: (s.data ++ '"' :: (',' :: (encodeElemsChars (s2 :: ss2) ++ [']']))) := by
          simp
        rw [hassoc]
        simp only [parseElemsAux]
        rw [parseJStrBody_clean s.data (hcl s (List.mem_cons_self s _))
          (',' :: (encodeElemsChars (s2 :: ss2) ++ [']']))]
        obtain ⟨tail, htail⟩ := encodeElemsChars_cons_head s2 ss2
        have hdw2 : (encodeElemsChars (s2 :: ss2) ++ [']']).dropWhile isJsonWs =
            encodeElemsChars (s2 :: ss2) ++ [']'] := by
          rw [htail]
          simp [List.dropWhile, isJsonWs]
        simp only [List.dropWhile]
        simp only [isJsonWs]
        simp only [show ((',' = ' ' || ',' = '\t' || ',' = '\n' || ',' = '\r') : Bool) = false
          from by decide]
        simp only [hdw2]
        rw [ih (by simp) (fun x hx => hcl x (List.mem_cons_of_mem s hx)) f
          (by simpa using Nat.le_of_succ_le_succ hfuel)]

theorem jsonStringifyLinks_data (ls : List String) :
    (jsonStringifyLinks ls).data = '[' :: (encodeElemsChars ls ++ [']']) := rfl

/-- `JSON.parse` inverts `JSON.stringify` on escape-free link lists. -/
theorem jsonParse_stringify (ls : List String)
    (hcl : ∀ s ∈ ls, ∀ c ∈ s.data, c ≠ '"' ∧ c ≠ '\\') :
    jsonParseStringArray (jsonStringifyLinks ls) = some ls := by
  cases ls with
  | nil => decide
  | cons s ss =>
    obtain ⟨tail0, htail⟩ := encodeElemsChars_cons_head s ss
    have hdw1 : (encodeElemsChars (s :: ss) ++ [']']).dropWhile isJsonWs =
        '"' :: (tail0 ++ [']']) := by
      rw [htail]
      simp [List.dropWhile, isJsonWs]
    have hfuel : (s :: ss).length ≤ ('"' :: (tail0 ++ [']'])).length + 1 := by
      have hl := length_le_encodeElems (s :: ss)
      rw [htail] at hl
      simp only [List.length_cons, List.length_append] at hl ⊢
      omega
    have henc := parseElemsAux_encode (s :: ss) (by simp) hcl
      (('"' :: (tail0 ++ [']'])).length + 1) hfuel
    have hsplit : encodeElemsChars (s :: ss) ++ [']'] = '"' :: (tail0 ++ [']']) := by
      rw [htail]
      simp
    rw [hsplit] at henc
    simp only [jsonParseStringArray, jsonStringifyLinks_data]
    simp only [List.dropWhile]
    simp only [isJsonWs]
    simp only [show (('[' = ' ' || '[' = '\t' || '[' = '\n' || '[' = '\r') : Bool) = false
      from by decide]
    simp only [if_true, hdw1]
    rw [if_neg (by decide)]
    rw [henc]
    simp

theorem jsonStringifyLinks_ne_empty (ls : List String) : jsonStringifyLinks ls ≠ "" := by
  intro h
  have hd := congrArg String.data h
  rw [jsonStringifyLinks_data] at hd
  simp at hd

theorem jsonStringifyLinks_eq_brackets {ls : List String}
    (h : jsonStringifyLinks ls = "[]") : ls = [] := by
  cases ls with
  | nil => rfl
  | cons s ss =>
    obtain ⟨tail, htail⟩ := encodeElemsChars_cons_head s ss
    have hd := congrArg String.data h
    rw [jsonStringifyLinks_data, htail] at hd
    have hbr : ("[]" : String).data = ['[', ']'] := rfl
    rw [hbr] at hd
    have hlen := congrArg List.length hd
    simp at hlen

/-- `Post.parseLinks` inverts the repository serialization of an escape-free
link list. -/
theorem parseLinks_stringify (ls : List String) (hcl : cleanLinksB ls = true) :
    parseLinks (some (jsonStringifyLinks ls)) = ls := by
  simp only [parseLinks]
  rw [if_neg (jsonStringifyLinks_ne_empty ls)]
  rw [jsonParse_stringify ls (cleanLinksB_prop hcl)]

/-- C10, as stated, is false: the textual filter keeps a row whose links
column stores `''` (non-null and not the two-character string `'[]'`), yet
`parseLinks` maps `''` to the empty array, so `getAllPosts` with
`hasLinks: true` returns that post with an empty `links` sequence. -/
theorem C10_counterexample :
    ((PostService.getAllPosts
      { rows := [{ id := 1, title := "deal", description := none, links := some "",
                   createdAt := 5, updatedAt := 5 }], nextId := 2 }
      { hasLinks := some true }).res.toOption.map
        (fun r => (r.total, r.posts.map Post.links))) = some (1, [[]]) := by decide

/-- C10 (amended): on any table, every post returned by `getAllPosts` with a
validated query whose `hasLinks` is `true` comes from a stored row whose
links column is non-null and differs from the literal `'[]'` (and the
tri-state filter admits exactly those rows); whenever such a row holds the
repository serialization of an escape-free link list, the returned post's
parsed `links` equal that list and are non-empty. Rows whose column passes
the textual test without being such a serialization (for example `''`) may
still parse to the empty sequence. -/
theorem C10_haslinks_admits_nonnull_nonempty
    (t : PostTable) (q : QueryInput) (v : PostValidation.QueryValue)
    (hv : PostValidation.queryValidate q = .ok v) (hl : v.hasLinks = some true)
    (res : PostFindAllResult) (hres : (PostService.getAllPosts t q).res = .ok res) :
    (∀ r : PostRow, PostRepository.matchesLinksFilter (some true) r = true ↔
      (r.links ≠ none ∧ r.links ≠ some "[]")) ∧
    ∀ p ∈ res.posts, ∃ r ∈ t.rows, p = Post.fromRow r ∧
      r.links ≠ none ∧ r.links ≠ some "[]" ∧
      (∀ ls : List String, cleanLinksB ls = true →
        r.links = some (jsonStringifyLinks ls) → p.links = ls ∧ ls ≠ []) := by
  constructor
  · intro r
    cases hr : r.links with
    | none => simp [PostRepository.matchesLinksFilter, hr]
    | some s => simp [PostRepository.matchesLinksFilter, hr]
  · intro p hp
    simp only [PostService.getAllPosts, hv] at hres
    simp only [Except.ok.injEq] at hres
    subst hres
    simp only [PostRepository.findAll] at hp
    obtain ⟨r, hrmem, hreq⟩ := List.mem_map.mp hp
    have hrmem2 := List.mem_of_mem_take hrmem
    have hrmem3 := List.mem_of_mem_drop hrmem2
    have hrmem4 := (mem_sortByLe _ _ _).mp hrmem3
    obtain ⟨hrt, hmatch⟩ := List.mem_filter.mp hrmem4
    simp only [PostRepository.matchesPostFilters, Bool.and_eq_true] at hmatch
    have hlinks : PostRepository.matchesLinksFilter (some true) r = true := by
      have h2 := hmatch.2
      simp only [hl] at h2
      exact h2
    refine ⟨r, hrt, hreq.symm, ?_⟩
    cases hr : r.links with
    | none => simp [PostRepository.matchesLinksFilter, hr] at hlinks
    | some s =>
      have hsne : s ≠ "[]" := by
        simpa [PostRepository.matchesLinksFilter, hr] using hlinks
      refine ⟨by simp [hr], by simp [hr, hsne], ?_⟩
      intro ls hcl hser
      have hseq : s = jsonStringifyLinks ls := by injection hser
      have hpl : p.links = ls := by
        rw [← hreq]
        show (Post.fromRow r).links = ls
        simp only [Post.fromRow]
        rw [hr, hseq, parseLinks_stringify ls hcl]
      refine ⟨hpl, ?_⟩
      intro hnil
      subst hnil
      exact hsne (by rw [hseq]; decide)

/-- Witness for C10 at a one-row table storing the canonical serialization
of a single link, queried with `hasLinks: true`. -/
theorem C10_witness :
    (∀ r : PostRow, PostRepository.matchesLinksFilter (some true) r = true ↔
      (r.links ≠ none ∧ r.links ≠ some "[]")) ∧
    ∀ p ∈ ({ posts := [{ id := some 1, title := "deal", description := none,
                         links := ["https://a.example"],
                         createdAt := some 5, updatedAt := some 5 }],
             total := 1, page := 1, limit := 20, pages := 1 } : PostFindAllResult).posts,
      ∃ r ∈ ({ rows := [{ id := 1, title := "deal", description := none,
                          links := some (jsonStringifyLinks ["https://a.example"]),
                          createdAt := 5, updatedAt := 5 }],
               nextId := 2 } : PostTable).rows,
        p = Post.fromRow r ∧ r.links ≠ none ∧ r.links ≠ some "[]" ∧
        (∀ ls : List String, cleanLinksB ls = true →
          r.links = some (jsonStringifyLinks ls) → p.links = ls ∧ ls ≠ []) :=
  C10_haslinks_admits_nonnull_nonempty
    { rows := [{ id := 1, title := "deal", description := none,
                 links := some (jsonStringifyLinks ["https://a.example"]),
                 createdAt := 5, updatedAt := 5 }], nextId := 2 }
    { hasLinks := some true }
    { page := 1, limit := 20, search := none, hasLinks := some true }
    (by decide) rfl
    { posts := [{ id := some 1, title := "deal", description := none,
                  links := ["https://a.example"],
                  createdAt := some 5, updatedAt := some 5 }],
      total := 1, page := 1, limit := 20, pages := 1 }
    (by decide)
